import Mathlib

/-!
# CityEase backend: the request handlers of `server.js` over an explicit store

The handlers of `src/server.js` are embedded as pure functions that take the
store (the two PostgreSQL tables with their sequences) and return the handler's
outcome together with the new store.

Conventions of the embedding.

* Request body fields and query parameters are JSON strings or absent
  (`Option String`); `!v` is `!(truthy v)`.
* The libraries are not part of the repository. `jsonwebtoken` and `bcryptjs`
  are fields of `Env` (arbitrary functions); PostgreSQL is modelled from the
  DDL of `initDb`: `SERIAL` keys drawn from a sequence, `UNIQUE (email)`,
  `REFERENCES users(id)`, the `VARCHAR(n)` length rule and the column defaults.
* Everything else that can make a query reject (connection loss, timeouts,
  encoding errors, ...) is the `fault` field of the per-request `World`, which
  also carries the clock and the salt drawn by `bcrypt.hash`.
* An `async` handler whose promise rejects is the outcome `Outcome.uncaught`;
  what Express then does with the rejection is outside the handlers.
-/

namespace CityEase

/-! ## JavaScript helpers -/

/-- Truthiness of an optional string: `undefined` and `''` are falsy. -/
def truthy : Option String → Bool
  | none => false
  | some s => s != ""

/-- JavaScript `v || d` on an optional string. -/
def orElse (v : Option String) (d : String) : String :=
  match v with
  | some s => if s != "" then s else d
  | none => d

/-- JavaScript `s.startsWith(p)`. -/
def startsWith (s p : String) : Bool :=
  p.data.isPrefixOf s.data

/-- JavaScript `s.slice(n)` for a non-negative `n`. -/
def slice (s : String) (n : Nat) : String :=
  String.mk (s.data.drop n)

/-- Whether the characters `p` occur contiguously in `s`. -/
def occursIn (p : List Char) : List Char → Bool
  | [] => p.isEmpty
  | c :: cs => p.isPrefixOf (c :: cs) || occursIn p cs

/-- JavaScript `s.includes(p)`. -/
def includes (s p : String) : Bool :=
  occursIn p.data s.data

/-- A thrown JavaScript error: its `code` property and `String(e)`. -/
structure JsError where
  code : Option String
  text : String
deriving DecidableEq, Repr

/-! ## Libraries and per-request environment -/

/-- The payload signed into a token by `signToken` and returned by `jwt.verify`. -/
structure TokenPayload where
  id : Nat
  email : String
deriving DecidableEq, Repr

/-- Process-wide configuration and the two libraries.
`jwtSign payload secret expiresIn now` is `jwt.sign`; `jwtVerify token secret now`
is `jwt.verify`, `none` when it throws; `bcryptHash s rounds salt` is
`bcrypt.hash`; `bcryptCompare s hash` is `bcrypt.compare` on two strings. -/
structure Env where
  JWT_SECRET : String
  jwtSign : TokenPayload → String → Nat → Nat → String
  jwtVerify : String → String → Nat → Option TokenPayload
  bcryptHash : String → Nat → String → String
  bcryptCompare : String → String → Bool

/-- What the outside world contributes to one request: the clock (seconds), the
salt drawn by `bcrypt.hash`, and whether the store query of this request
rejects for a reason outside the declared schema. -/
structure World where
  now : Nat
  salt : String
  fault : Option JsError

/-- Seven days in seconds, the `expiresIn: '7d'` of `signToken`. -/
def sevenDays : Nat := 7 * 24 * 60 * 60

/-! ## Store -/

/-- Row of table `users`. -/
structure User where
  id : Nat
  name : String
  email : String
  password_hash : String
  phone : String
deriving DecidableEq, Repr

/-- The columns `id, name, email, phone` of a user row. -/
structure PublicUser where
  id : Nat
  name : String
  email : String
  phone : String
deriving DecidableEq, Repr

/-- Row of table `bookings`. -/
structure Booking where
  id : Nat
  user_id : Nat
  service : String
  sub_service : String
  professional : String
  address : String
  datetime : String
  notes : String
  status : String
  created_at : Nat
deriving DecidableEq, Repr

/-- The two tables, in insertion order, and the last value of each `SERIAL` sequence. -/
structure Db where
  users : List User
  bookings : List Booking
  users_id_seq : Nat
  bookings_id_seq : Nat
deriving DecidableEq, Repr

/-- The store right after `initDb` on an empty database. -/
def Db.empty : Db := ⟨[], [], 0, 0⟩

/-- Assignment of a string to a `VARCHAR(n)` column: kept when it fits, cut to
`n` characters when only spaces are cut, rejected otherwise. -/
def varchar (n : Nat) (s : String) : Option String :=
  if s.data.length ≤ n then some s
  else if (s.data.drop n).all (fun c => c == ' ') then some (String.mk (s.data.take n))
  else none

/-- SQLSTATE 22001 for a `VARCHAR(255)` column. -/
def tooLong255 : JsError :=
  ⟨some "22001", "error: value too long for type character varying(255)"⟩

/-- SQLSTATE 22001 for the `VARCHAR(20)` column. -/
def tooLong20 : JsError :=
  ⟨some "22001", "error: value too long for type character varying(20)"⟩

/-- SQLSTATE 23505 on `users.email`. -/
def uniqueViolation : JsError :=
  ⟨some "23505", "error: duplicate key value violates unique constraint \"users_email_key\""⟩

/-- SQLSTATE 23503 on `bookings.user_id`. -/
def foreignKeyViolation : JsError :=
  ⟨some "23503",
    "error: insert or update on table \"bookings\" violates foreign key constraint \"bookings_user_id_fkey\""⟩

/-- Assignment to a `VARCHAR(255)` column inside an `INSERT`. -/
def varchar255 (s : String) : Except JsError String :=
  match varchar 255 s with
  | some v => .ok v
  | none => .error tooLong255

/-- Assignment to the `VARCHAR(20)` column inside an `INSERT`. -/
def varchar20 (s : String) : Except JsError String :=
  match varchar 20 s with
  | some v => .ok v
  | none => .error tooLong20

/-- The row values of `INSERT INTO users (name, email, password_hash, phone)`. -/
def userRow (id : Nat) (name email hash phone : String) : Except JsError User := do
  let n ← varchar255 name
  let e ← varchar255 email
  let p ← varchar20 phone
  pure ⟨id, n, e, hash, p⟩

/-- `INSERT INTO users (...) VALUES ($1, $2, $3, $4) RETURNING id, name, email, phone`.
A row rejected by a `VARCHAR` column draws no sequence value; a row rejected by
the unique key has drawn one, which is not given back. -/
def insertUser (db : Db) (w : World) (name email hash phone : String) :
    Except JsError PublicUser × Db :=
  match w.fault with
  | some e => (.error e, db)
  | none =>
    let id := db.users_id_seq + 1
    let db1 : Db := ⟨db.users, db.bookings, id, db.bookings_id_seq⟩
    match userRow id name email hash phone with
    | .error e => (.error e, db)
    | .ok row =>
      if db.users.any (fun u => u.email == row.email) then (.error uniqueViolation, db1)
      else (.ok ⟨row.id, row.name, row.email, row.phone⟩,
            ⟨db.users ++ [row], db.bookings, id, db.bookings_id_seq⟩)

/-- `SELECT * FROM users WHERE email = $1`; an absent parameter is sent as NULL
and matches no row. -/
def selectUsersByEmail (db : Db) (w : World) (email : Option String) :
    Except JsError (List User) :=
  match w.fault with
  | some e => .error e
  | none =>
    match email with
    | none => .ok []
    | some v => .ok (db.users.filter (fun u => u.email == v))

/-- The row values of `INSERT INTO bookings (...)`, `status` and `created_at`
taking their column defaults. -/
def bookingRow (id user_id : Nat) (service sub_service professional address datetime notes : String)
    (now : Nat) : Except JsError Booking := do
  let s ← varchar255 service
  let ss ← varchar255 sub_service
  let p ← varchar255 professional
  let d ← varchar255 datetime
  pure ⟨id, user_id, s, ss, p, address, d, notes, "pending", now⟩

/-- `INSERT INTO bookings (...) VALUES ($1, ..., $7) RETURNING *`. A row rejected
by a `VARCHAR` column draws no sequence value; a row rejected by the foreign
key has drawn one, which is not given back. -/
def insertBooking (db : Db) (w : World) (user_id : Nat)
    (service sub_service professional address datetime notes : String) :
    Except JsError Booking × Db :=
  match w.fault with
  | some e => (.error e, db)
  | none =>
    let id := db.bookings_id_seq + 1
    let db1 : Db := ⟨db.users, db.bookings, db.users_id_seq, id⟩
    match bookingRow id user_id service sub_service professional address datetime notes w.now with
    | .error e => (.error e, db)
    | .ok row =>
      if db.users.any (fun u => u.id == user_id) then
        (.ok row, ⟨db.users, db.bookings ++ [row], db.users_id_seq, id⟩)
      else (.error foreignKeyViolation, db1)

/-- The order of `ORDER BY created_at DESC`. -/
def newerFirst (a b : Booking) : Prop := b.created_at ≤ a.created_at

instance : DecidableRel newerFirst := fun a b => inferInstanceAs (Decidable (b.created_at ≤ a.created_at))

/-- `SELECT * FROM bookings WHERE user_id = $1 ORDER BY created_at DESC`. Rows
with equal timestamps come in the order the sort leaves them; SQL fixes none. -/
def selectBookingsByUser (db : Db) (w : World) (user_id : Nat) : Except JsError (List Booking) :=
  match w.fault with
  | some e => .error e
  | none => .ok ((db.bookings.filter (fun b => b.user_id == user_id)).insertionSort newerFirst)

/-! ## Catalog -/

/-- Entry of `services.seed.json`. -/
structure Service where
  id : Nat
  name : String
deriving DecidableEq, Repr

/-- Entry of `professionals.seed.json`. -/
structure Professional where
  id : Nat
  name : String
  service_id : Nat
deriving DecidableEq, Repr

/-! ## Requests and responses -/

/-- Body of `POST /api/auth/register`. -/
structure RegisterBody where
  name : Option String
  email : Option String
  password : Option String
  phone : Option String

/-- Body of `POST /api/auth/login`. -/
structure LoginBody where
  email : Option String
  password : Option String

/-- Body of `POST /api/bookings`. -/
structure BookingBody where
  service : Option String
  subService : Option String
  professional : Option String
  address : Option String
  datetime : Option String
  notes : Option String

/-- Body of `POST /api/payment/confirm`. -/
structure PaymentBody where
  bookingId : Option String
  method : Option String

/-- JSON written by `res.json`. -/
inductive Body where
  | error (message : String)
  | session (user : PublicUser) (token : String)
  | booking (row : Booking)
  | bookings (rows : List Booking)
  | services (rows : List Service)
  | professionals (rows : List Professional)
  | payment (bookingId : Option String) (method : String)
  | health
deriving DecidableEq, Repr

/-- The token carried by a response, if any. -/
def Body.token? : Body → Option String
  | .session _ t => some t
  | _ => none

/-- How a handler ends: it wrote a response, or its promise rejected, the error
leaving the handler uncaught and the handler writing nothing. -/
inductive Outcome where
  | response (status : Nat) (body : Body)
  | uncaught (e : JsError)
deriving DecidableEq, Repr

/-- The token carried by an outcome, if any. -/
def Outcome.token? : Outcome → Option String
  | .response _ b => b.token?
  | .uncaught _ => none

/-! ## `signToken` and the `auth` middleware -/

/-- `signToken(user)`. -/
def signToken (env : Env) (w : World) (id : Nat) (email : String) : String :=
  env.jwtSign ⟨id, email⟩ env.JWT_SECRET sevenDays w.now

/-- What `auth` did: wrote a response and returned, or assigned `req.user` and
called `next()` once with nothing written to `res`. -/
inductive AuthResult where
  | respond (status : Nat) (body : Body)
  | next (user : TokenPayload)
deriving DecidableEq, Repr

/-- `header.startsWith('Bearer ') ? header.slice(7) : null`, on
`req.headers.authorization || ''`. -/
def bearerToken (authorization : Option String) : Option String :=
  let header := orElse authorization ""
  if startsWith header "Bearer " then some (slice header 7) else none

/-- Middleware `auth(req, res, next)`. -/
def auth (env : Env) (w : World) (authorization : Option String) : AuthResult :=
  let token := bearerToken authorization
  if !(truthy token) then .respond 401 (.error "Missing token")
  else
    match env.jwtVerify (orElse token "") env.JWT_SECRET w.now with
    | some payload => .next payload
    | none => .respond 401 (.error "Invalid token")

/-! ## Handlers -/

/-- The `try` block of `POST /api/auth/register`. -/
def registerTry (env : Env) (w : World) (db : Db) (body : RegisterBody) :
    Except JsError Outcome × Db :=
  if !(truthy body.email) || !(truthy body.password) then
    (.ok (.response 400 (.error "Email and password required")), db)
  else
    let hash := env.bcryptHash (orElse body.password "") 10 w.salt
    match insertUser db w (orElse body.name "") (orElse body.email "") hash (orElse body.phone "") with
    | (.error e, db1) => (.error e, db1)
    | (.ok user, db1) =>
      (.ok (.response 200 (.session user (signToken env w user.id user.email))), db1)

/-- The `catch` block of `POST /api/auth/register`. -/
def registerCatch (e : JsError) : Outcome :=
  if e.code == some "23505" || includes e.text "unique" then
    .response 409 (.error "Email already exists")
  else .response 500 (.error "Registration failed")

/-- Handler of `POST /api/auth/register`. -/
def register (env : Env) (w : World) (db : Db) (body : RegisterBody) : Outcome × Db :=
  match registerTry env w db body with
  | (.ok out, db1) => (out, db1)
  | (.error e, db1) => (registerCatch e, db1)

/-- `bcrypt.compare(s, hash)`: rejects when `s` is not a string. -/
def bcryptCompare (env : Env) (s : Option String) (hash : String) : Except JsError Bool :=
  match s with
  | some p => .ok (env.bcryptCompare p hash)
  | none => .error ⟨none, "Error: Illegal arguments: undefined, string"⟩

/-- The `try` block of `POST /api/auth/login`. -/
def loginTry (env : Env) (w : World) (db : Db) (body : LoginBody) : Except JsError Outcome := do
  let rows ← selectUsersByEmail db w body.email
  match rows.head? with
  | none => pure (.response 401 (.error "Invalid credentials"))
  | some user =>
    let ok ← bcryptCompare env body.password user.password_hash
    if !ok then pure (.response 401 (.error "Invalid credentials"))
    else
      pure (.response 200
        (.session ⟨user.id, user.name, user.email, user.phone⟩ (signToken env w user.id user.email)))

/-- Handler of `POST /api/auth/login`. -/
def login (env : Env) (w : World) (db : Db) (body : LoginBody) : Outcome :=
  match loginTry env w db body with
  | .ok out => out
  | .error _ => .response 500 (.error "Login failed")

/-- Handler of `GET /api/professionals`. -/
def listProfessionals (services : List Service) (professionals : List Professional)
    (service : Option String) : List Professional :=
  if !(truthy service) then professionals
  else
    match services.find? (fun s => s.name == orElse service "") with
    | none => []
    | some svc => professionals.filter (fun p => p.service_id == svc.id)

/-- Body of the handler of `POST /api/bookings`, after `auth`. -/
def createBooking (w : World) (db : Db) (user : TokenPayload) (body : BookingBody) :
    Outcome × Db :=
  if !(truthy body.service) || !(truthy body.address) || !(truthy body.datetime) then
    (.response 400 (.error "Missing required fields"), db)
  else
    match insertBooking db w user.id (orElse body.service "") (orElse body.subService "")
        (orElse body.professional "") (orElse body.address "") (orElse body.datetime "")
        (orElse body.notes "") with
    | (.error e, db1) => (.uncaught e, db1)
    | (.ok row, db1) => (.response 200 (.booking row), db1)

/-- Body of the handler of `GET /api/bookings`, after `auth`. -/
def listBookings (w : World) (db : Db) (user : TokenPayload) : Outcome :=
  match selectBookingsByUser db w user.id with
  | .error e => .uncaught e
  | .ok rows => .response 200 (.bookings rows)

/-- Body of the handler of `POST /api/payment/confirm`, after `auth`. -/
def paymentConfirm (body : PaymentBody) : Outcome :=
  .response 200 (.payment body.bookingId (orElse body.method "Cash"))

/-! ## Router -/

/-- Requests to the API routes. -/
inductive Request where
  | register (body : RegisterBody)
  | login (body : LoginBody)
  | services
  | professionals (service : Option String)
  | createBooking (authorization : Option String) (body : BookingBody)
  | listBookings (authorization : Option String)
  | paymentConfirm (authorization : Option String) (body : PaymentBody)
  | health

/-- The process state: the store and the catalog read at start-up. -/
structure App where
  db : Db
  services : List Service
  professionals : List Professional

/-- A route `app.METHOD(path, auth, handler)`. -/
def protect (env : Env) (w : World) (authorization : Option String) (db : Db)
    (handler : TokenPayload → Outcome × Db) : Outcome × Db :=
  match auth env w authorization with
  | .respond status body => (.response status body, db)
  | .next user => handler user

/-- One request handled by the router. -/
def step (env : Env) (app : App) (w : World) : Request → Outcome × App
  | .register body =>
    let r := register env w app.db body
    (r.1, ⟨r.2, app.services, app.professionals⟩)
  | .login body => (login env w app.db body, app)
  | .services => (.response 200 (.services app.services), app)
  | .professionals service =>
    (.response 200 (.professionals (listProfessionals app.services app.professionals service)), app)
  | .createBooking authorization body =>
    let r := protect env w authorization app.db (fun user => createBooking w app.db user body)
    (r.1, ⟨r.2, app.services, app.professionals⟩)
  | .listBookings authorization =>
    let r := protect env w authorization app.db (fun user => (listBookings w app.db user, app.db))
    (r.1, ⟨r.2, app.services, app.professionals⟩)
  | .paymentConfirm authorization body =>
    let r := protect env w authorization app.db (fun _ => (paymentConfirm body, app.db))
    (r.1, ⟨r.2, app.services, app.professionals⟩)
  | .health => (.response 200 .health, app)

/-- The state after a sequence of requests, each with its own world. -/
def run (env : Env) (app : App) : List (World × Request) → App
  | [] => app
  | (w, r) :: rest => run env (step env app w r).2 rest

/-- A state the server can be in: some requests after start-up on empty tables. -/
def Reachable (env : Env) (app : App) : Prop :=
  ∃ services professionals trace, app = run env ⟨Db.empty, services, professionals⟩ trace

/-! ## Store consistency -/

/-- What the declared keys and sequences guarantee about the tables: emails are
pairwise distinct, ids are pairwise distinct and were drawn from the sequences,
and every booking references an existing user. -/
structure Db.Consistent (db : Db) : Prop where
  emails : (db.users.map (fun u => u.email)).Nodup
  userIds : ∀ u ∈ db.users, u.id ≤ db.users_id_seq
  bookingIds : ∀ b ∈ db.bookings, b.id ≤ db.bookings_id_seq
  bookingKeys : (db.bookings.map (fun b => b.id)).Nodup
  owners : ∀ b ∈ db.bookings, ∃ u ∈ db.users, u.id = b.user_id

/-! ## Sample data used to instantiate the theorems -/

/-- A service catalog with one entry. -/
def sampleServices : List Service := [⟨1, "Plumbing"⟩]

/-- A professional of the sample catalog. -/
def sampleProfessionals : List Professional := [⟨1, "Ravi", 1⟩]

/-- A toy instance of the libraries: the token of a user is `jwt.` followed by
the email, only the tokens of `asha@example.com` (user 1) and `ben@example.com`
(user 2) verify, and the hash of a password is `hash.` followed by the
password. -/
def sampleEnv : Env where
  JWT_SECRET := "dev_secret_change_me"
  jwtSign := fun p _ _ _ => "jwt." ++ p.email
  jwtVerify := fun t _ _ =>
    if t = "jwt.asha@example.com" then some ⟨1, "asha@example.com"⟩
    else if t = "jwt.ben@example.com" then some ⟨2, "ben@example.com"⟩
    else none
  bcryptHash := fun s _ _ => "hash." ++ s
  bcryptCompare := fun s h => "hash." ++ s == h

/-- Registration of the first sample user. -/
def ashaRegisters : RegisterBody := ⟨some "Asha", some "asha@example.com", some "s3cret", none⟩

/-- Registration of the second sample user. -/
def benRegisters : RegisterBody := ⟨some "Ben", some "ben@example.com", some "hunter2", none⟩

/-- The server after both sample users registered. -/
def sampleApp : App :=
  run sampleEnv ⟨Db.empty, sampleServices, sampleProfessionals⟩
    [(⟨0, "salt", none⟩, .register ashaRegisters), (⟨0, "salt", none⟩, .register benRegisters)]

/-- A booking request with the three required fields. -/
def sampleBooking : BookingBody :=
  ⟨some "Plumbing", none, none, some "1 Main St", some "2025-01-01 10:00", none⟩

/-- A request served at time 0 by a healthy store. -/
def calm : World := ⟨0, "salt", none⟩

/-- A request during which the store connection is refused. -/
def outage : World := ⟨0, "salt", some ⟨some "ECONNREFUSED", "Error: connect ECONNREFUSED"⟩⟩

/-! ## Basic facts about the helpers -/

theorem truthy_eq_false_iff (v : Option String) :
    truthy v = false ↔ v = none ∨ v = some "" := by
  cases v with
  | none => simp [truthy]
  | some s => simp [truthy]

theorem truthy_some (s : String) (h : s ≠ "") : truthy (some s) = true := by
  simp [truthy, h]

theorem orElse_some (s d : String) (h : s ≠ "") : orElse (some s) d = s := by
  simp [orElse, h]

theorem startsWith_append (p t : String) : startsWith (p ++ t) p = true := by
  simp [startsWith, List.isPrefixOf_iff_prefix]

theorem slice_append (p t : String) : slice (p ++ t) p.data.length = t := by
  simp [slice]

theorem eq_append_slice (h p : String) (hp : startsWith h p = true) :
    h = p ++ slice h p.data.length := by
  have h1 : p.data <+: h.data := by
    simpa [startsWith, List.isPrefixOf_iff_prefix] using hp
  have h2 := List.prefix_iff_eq_append.mp h1
  apply String.ext
  rw [String.data_append]
  exact h2.symm

theorem bearerToken_bearer (t : String) : bearerToken (some ("Bearer " ++ t)) = some t := by
  have hlen : ("Bearer " : String).data.length = 7 := by decide
  by_cases ht : t = ""
  · subst ht
    decide
  · have hne : "Bearer " ++ t ≠ "" := by
      intro h
      have h3 := congrArg String.length h
      rw [String.length_append] at h3
      have h4 : ("Bearer " : String).length = 7 := by decide
      have h5 : ("" : String).length = 0 := by decide
      omega
    have h1 : orElse (some ("Bearer " ++ t)) "" = "Bearer " ++ t := orElse_some _ _ hne
    have h2 := slice_append "Bearer " t
    rw [hlen] at h2
    simp [bearerToken, h1, startsWith_append, h2]

/-! ## Catalog service -/

theorem listProfessionals_filter (services : List Service) (professionals : List Professional)
    (name : String) (hne : name ≠ "") :
    listProfessionals services professionals (some name) =
      match services.find? (fun s => s.name == name) with
      | none => []
      | some svc => professionals.filter (fun p => p.service_id == svc.id) := by
  simp [listProfessionals, truthy, orElse, hne]

theorem step_catalog (env : Env) (app : App) (w : World) (req : Request) :
    (step env app w req).2.services = app.services ∧
      (step env app w req).2.professionals = app.professionals := by
  cases req <;> simp [step]

theorem run_catalog (env : Env) (trace : List (World × Request)) :
    ∀ app : App, (run env app trace).services = app.services ∧
      (run env app trace).professionals = app.professionals := by
  induction trace with
  | nil => intro app; simp [run]
  | cons x rest ih =>
    intro app
    obtain ⟨w, r⟩ := x
    have h1 := ih (step env app w r).2
    have h2 := step_catalog env app w r
    simp only [run]
    exact ⟨h1.1.trans h2.1, h1.2.trans h2.2⟩

/-- C9, as stated, fails: the empty filter string names no service of the sample
catalog, yet `GET /api/professionals?service=` answers with every professional. -/
theorem listProfessionals_empty_filter_returns_all :
    (∀ s ∈ sampleServices, s.name ≠ "") ∧
      listProfessionals sampleServices sampleProfessionals (some "") = [⟨1, "Ravi", 1⟩] := by
  decide

/-- C9, amended: for every catalog and every non-empty filter string that is not
the name of any service of the catalog, `listProfessionals` returns the empty
collection. -/
theorem listProfessionals_unknown_name (services : List Service)
    (professionals : List Professional) (name : String) (hne : name ≠ "")
    (hunknown : ∀ s ∈ services, s.name ≠ name) :
    listProfessionals services professionals (some name) = [] := by
  rw [listProfessionals_filter services professionals name hne]
  have hfind : services.find? (fun s => s.name == name) = none := by
    rw [List.find?_eq_none]
    intro s hs
    simpa using hunknown s hs
  rw [hfind]

/-- The amended C9 on the sample catalog with the filter `Gardening`. -/
theorem listProfessionals_unknown_name_witness :
    listProfessionals sampleServices sampleProfessionals (some "Gardening") = [] :=
  listProfessionals_unknown_name sampleServices sampleProfessionals "Gardening"
    (by decide) (by decide)

/-- C10, as stated, fails: in a catalog whose only service has the empty name and
id 1, the filter `""` is the name of a service, yet the answer is every
professional and not the (empty) list of those with `service_id` 1. -/
theorem listProfessionals_empty_name_counterexample :
    (∃ s ∈ [(⟨1, ""⟩ : Service)], s.name = "") ∧
      listProfessionals [⟨1, ""⟩] [⟨7, "Asha", 2⟩] (some "") = [⟨7, "Asha", 2⟩] ∧
      List.filter (fun p => p.service_id == 1) [(⟨7, "Asha", 2⟩ : Professional)] = [] := by
  decide

/-- C10, amended: for every catalog and every non-empty filter that is the name of
some service, `listProfessionals` returns the professionals whose `service_id`
is the id of the first service of the catalog with that name, in catalog order
(the `filter` of the professional list); with no filter it returns the whole
professional list; and no sequence of requests changes the catalog. -/
theorem listProfessionals_known_name (env : Env) (app : App) (trace : List (World × Request))
    (name : String) (hne : name ≠ "") (hknown : ∃ s ∈ app.services, s.name = name) :
    (∃ before svc after, app.services = before ++ svc :: after ∧ svc.name = name ∧
        (∀ s ∈ before, s.name ≠ name) ∧
        listProfessionals app.services app.professionals (some name) =
          app.professionals.filter (fun p => p.service_id == svc.id)) ∧
      listProfessionals app.services app.professionals none = app.professionals ∧
      (run env app trace).services = app.services ∧
      (run env app trace).professionals = app.professionals := by
  refine ⟨?_, ?_, (run_catalog env trace app).1, (run_catalog env trace app).2⟩
  · rw [listProfessionals_filter app.services app.professionals name hne]
    cases hfind : app.services.find? (fun s => s.name == name) with
    | none =>
      rw [List.find?_eq_none] at hfind
      obtain ⟨s, hs, hname⟩ := hknown
      exact absurd (by simpa using hname) (hfind s hs)
    | some svc =>
      obtain ⟨hp, before, after, hsplit, hfirst⟩ := List.find?_eq_some.mp hfind
      refine ⟨before, svc, after, hsplit, by simpa using hp, ?_, rfl⟩
      intro s hs
      simpa using hfirst s hs
  · simp [listProfessionals, truthy]

/-- The amended C10 on the sample catalog with the filter `Plumbing`. -/
theorem listProfessionals_known_name_witness :
    (∃ before svc after, sampleServices = before ++ svc :: after ∧ svc.name = "Plumbing" ∧
        (∀ s ∈ before, s.name ≠ "Plumbing") ∧
        listProfessionals sampleServices sampleProfessionals (some "Plumbing") =
          sampleProfessionals.filter (fun p => p.service_id == svc.id)) ∧
      listProfessionals sampleServices sampleProfessionals none = sampleProfessionals ∧
      (run sampleEnv ⟨Db.empty, sampleServices, sampleProfessionals⟩
          [(calm, Request.professionals (some "Plumbing"))]).services = sampleServices ∧
      (run sampleEnv ⟨Db.empty, sampleServices, sampleProfessionals⟩
          [(calm, Request.professionals (some "Plumbing"))]).professionals = sampleProfessionals :=
  listProfessionals_known_name sampleEnv ⟨Db.empty, sampleServices, sampleProfessionals⟩
    [(calm, Request.professionals (some "Plumbing"))] "Plumbing" (by decide)
    ⟨⟨1, "Plumbing"⟩, by decide, by decide⟩

/-! ## Token verifier -/

theorem auth_missing (env : Env) (w : World) (authorization : Option String)
    (h : truthy (bearerToken authorization) = false) :
    auth env w authorization = .respond 401 (.error "Missing token") := by
  simp [auth, h]

theorem auth_bearer (env : Env) (w : World) (t : String) (ht : t ≠ "") :
    auth env w (some ("Bearer " ++ t)) =
      match env.jwtVerify t env.JWT_SECRET w.now with
      | some payload => .next payload
      | none => .respond 401 (.error "Invalid token") := by
  simp [auth, bearerToken_bearer, truthy, orElse, ht]

theorem bearerToken_not_bearer (h : String) (hp : startsWith h "Bearer " = false) :
    bearerToken (some h) = none := by
  by_cases hh : h = ""
  · subst hh
    decide
  · simp [bearerToken, orElse, hh, hp]

theorem bearerToken_cases (authorization : Option String) :
    authorization = none ∨
      (∃ h, authorization = some h ∧ startsWith h "Bearer " = false) ∨
      ∃ t, authorization = some ("Bearer " ++ t) := by
  cases authorization with
  | none => exact Or.inl rfl
  | some h =>
    cases hp : startsWith h "Bearer " with
    | false => exact Or.inr (Or.inl ⟨h, rfl, hp⟩)
    | true => exact Or.inr (Or.inr ⟨_, congrArg some (eq_append_slice h "Bearer " hp)⟩)

theorem bearer_append_inj (t u : String) (h : "Bearer " ++ t = "Bearer " ++ u) : t = u := by
  have h1 := congrArg String.data h
  rw [String.data_append, String.data_append] at h1
  exact String.ext (List.append_cancel_left h1)

/-- C4: for every request passed to `auth`: if the Authorization header is absent,
does not start with `Bearer `, carries an empty token, or carries a token that
`jwt.verify` rejects, the middleware answers 401 with a JSON error and the
downstream handler is not invoked (the route's outcome is that response for
every handler, the store untouched); otherwise the header is `Bearer ` followed
by a non-empty token that verifies, the decoded payload is handed on as
`req.user`, `next()` is called and the route's outcome is the handler's. -/
theorem auth_contract (env : Env) (w : World) (authorization : Option String) :
    ((authorization = none ∨
        (∃ h, authorization = some h ∧ startsWith h "Bearer " = false) ∨
        authorization = some "Bearer " ∨
        (∃ t, authorization = some ("Bearer " ++ t) ∧
          env.jwtVerify t env.JWT_SECRET w.now = none)) →
      ∃ message, auth env w authorization = .respond 401 (.error message) ∧
        ∀ db handler, protect env w authorization db handler =
          (.response 401 (.error message), db)) ∧
    (¬ (authorization = none ∨
        (∃ h, authorization = some h ∧ startsWith h "Bearer " = false) ∨
        authorization = some "Bearer " ∨
        (∃ t, authorization = some ("Bearer " ++ t) ∧
          env.jwtVerify t env.JWT_SECRET w.now = none)) →
      ∃ t payload, authorization = some ("Bearer " ++ t) ∧ t ≠ "" ∧
        env.jwtVerify t env.JWT_SECRET w.now = some payload ∧
        auth env w authorization = .next payload ∧
        ∀ db handler, protect env w authorization db handler = handler payload) := by
  constructor
  · intro hbad
    have key : ∀ message, auth env w authorization = .respond 401 (.error message) →
        ∃ message, auth env w authorization = .respond 401 (.error message) ∧
          ∀ db handler, protect env w authorization db handler =
            (.response 401 (.error message), db) := by
      intro message hm
      exact ⟨message, hm, fun db handler => by simp [protect, hm]⟩
    rcases hbad with h | ⟨h, hh, hp⟩ | h | ⟨t, ht, hv⟩
    · subst h
      exact key _ (auth_missing env w none (by decide))
    · subst hh
      exact key _ (auth_missing env w (some h) (by rw [bearerToken_not_bearer h hp]; rfl))
    · subst h
      exact key _ (auth_missing env w (some "Bearer ") (by decide))
    · subst ht
      by_cases hempty : t = ""
      · subst hempty
        exact key _ (auth_missing env w _ (by decide))
      · have h1 := auth_bearer env w t hempty
        rw [hv] at h1
        exact key _ h1
  · intro hgood
    rcases bearerToken_cases authorization with h | ⟨h, hh, hp⟩ | ⟨t, ht⟩
    · exact absurd (Or.inl h) hgood
    · exact absurd (Or.inr (Or.inl ⟨h, hh, hp⟩)) hgood
    · have hempty : t ≠ "" := by
        intro h0
        subst h0
        exact hgood (Or.inr (Or.inr (Or.inl ht)))
      cases hv : env.jwtVerify t env.JWT_SECRET w.now with
      | none => exact absurd (Or.inr (Or.inr (Or.inr ⟨t, ht, hv⟩))) hgood
      | some payload =>
        have h1 := auth_bearer env w t hempty
        rw [hv] at h1
        subst ht
        exact ⟨t, payload, rfl, hempty, hv, h1, fun db handler => by simp [protect, h1]⟩

/-- C4 on a forged token and on the token of the first sample user. -/
theorem auth_contract_witness :
    (∃ message, auth sampleEnv calm (some "Bearer forged") = .respond 401 (.error message) ∧
        ∀ db handler, protect sampleEnv calm (some "Bearer forged") db handler =
          (.response 401 (.error message), db)) ∧
      ∃ t payload, some "Bearer jwt.asha@example.com" = some ("Bearer " ++ t) ∧ t ≠ "" ∧
        sampleEnv.jwtVerify t sampleEnv.JWT_SECRET calm.now = some payload ∧
        auth sampleEnv calm (some "Bearer jwt.asha@example.com") = .next payload ∧
        ∀ db handler, protect sampleEnv calm (some "Bearer jwt.asha@example.com") db handler =
          handler payload :=
  ⟨(auth_contract sampleEnv calm (some "Bearer forged")).1
      (Or.inr (Or.inr (Or.inr ⟨"forged", by decide, by decide⟩))),
    (auth_contract sampleEnv calm (some "Bearer jwt.asha@example.com")).2 (by
      rintro (h | ⟨h, hh, hp⟩ | h | ⟨t, ht, hv⟩)
      · exact absurd h (by decide)
      · cases hh
        exact absurd hp (by decide)
      · exact absurd h (by decide)
      · have ht2 : t = "jwt.asha@example.com" :=
          (bearer_append_inj _ _ (Option.some.inj ht)).symm
        subst ht2
        exact absurd hv (by decide))⟩

/-! ## Registration -/

theorem registerCatch_status (e : JsError) :
    registerCatch e = .response 409 (.error "Email already exists") ∨
      registerCatch e = .response 500 (.error "Registration failed") := by
  unfold registerCatch
  split
  · exact Or.inl rfl
  · exact Or.inr rfl

theorem register_present (env : Env) (w : World) (db : Db) (body : RegisterBody)
    (he : truthy body.email = true) (hp : truthy body.password = true) :
    register env w db body =
      match insertUser db w (orElse body.name "") (orElse body.email "")
          (env.bcryptHash (orElse body.password "") 10 w.salt) (orElse body.phone "") with
      | (.error e, db1) => (registerCatch e, db1)
      | (.ok user, db1) =>
        (.response 200 (.session user (signToken env w user.id user.email)), db1) := by
  simp only [register, registerTry, he, hp]
  generalize insertUser db w (orElse body.name "") (orElse body.email "")
    (env.bcryptHash (orElse body.password "") 10 w.salt) (orElse body.phone "") = r
  obtain ⟨res, db1⟩ := r
  cases res <;> simp

/-- C7: for every register request whose email or password is absent or empty,
the answer is 400 `Email and password required` whatever the libraries, the
clock, the salt and the state of the store connection are (nothing is hashed
and no query is sent), the store is unchanged and no token is issued; and a
request with both present and non-empty is answered 200, 409 or 500, never
400. -/
theorem register_validation (env : Env) (w : World) (db : Db) (body : RegisterBody) :
    ((body.email = none ∨ body.email = some "" ∨ body.password = none ∨
        body.password = some "") →
      register env w db body = (.response 400 (.error "Email and password required"), db) ∧
        (register env w db body).1.token? = none) ∧
    (∀ email password, body.email = some email → email ≠ "" →
      body.password = some password → password ≠ "" →
      ∃ status payload, (register env w db body).1 = .response status payload ∧
        (status = 200 ∨ status = 409 ∨ status = 500)) := by
  constructor
  · intro habsent
    have hfalsy : truthy body.email = false ∨ truthy body.password = false := by
      rcases habsent with h | h | h | h
      · exact Or.inl ((truthy_eq_false_iff _).mpr (Or.inl h))
      · exact Or.inl ((truthy_eq_false_iff _).mpr (Or.inr h))
      · exact Or.inr ((truthy_eq_false_iff _).mpr (Or.inl h))
      · exact Or.inr ((truthy_eq_false_iff _).mpr (Or.inr h))
    have hreg : register env w db body =
        (.response 400 (.error "Email and password required"), db) := by
      rcases hfalsy with h | h <;> simp [register, registerTry, h]
    exact ⟨hreg, by rw [hreg]; rfl⟩
  · intro email password he hne hp hnp
    have h1 : truthy body.email = true := by rw [he]; exact truthy_some email hne
    have h2 : truthy body.password = true := by rw [hp]; exact truthy_some password hnp
    rw [register_present env w db body h1 h2]
    generalize insertUser db w (orElse body.name "") (orElse body.email "")
      (env.bcryptHash (orElse body.password "") 10 w.salt) (orElse body.phone "") = r
    obtain ⟨res, db1⟩ := r
    cases res with
    | error e =>
      rcases registerCatch_status e with h | h
      · exact ⟨409, _, h, Or.inr (Or.inl rfl)⟩
      · exact ⟨500, _, h, Or.inr (Or.inr rfl)⟩
    | ok user => exact ⟨200, _, rfl, Or.inl rfl⟩

/-- C7 on a registration without password during a store outage, and on a
complete registration. -/
theorem register_validation_witness :
    (register sampleEnv outage Db.empty ⟨some "Asha", some "asha@example.com", none, none⟩ =
        (.response 400 (.error "Email and password required"), Db.empty) ∧
      (register sampleEnv outage Db.empty
        ⟨some "Asha", some "asha@example.com", none, none⟩).1.token? = none) ∧
    ∃ status payload,
      (register sampleEnv calm Db.empty
        ⟨some "Asha", some "asha@example.com", some "s3cret", none⟩).1 =
          .response status payload ∧
        (status = 200 ∨ status = 409 ∨ status = 500) :=
  ⟨(register_validation sampleEnv outage Db.empty
      ⟨some "Asha", some "asha@example.com", none, none⟩).1 (Or.inr (Or.inr (Or.inl rfl))),
    (register_validation sampleEnv calm Db.empty
      ⟨some "Asha", some "asha@example.com", some "s3cret", none⟩).2
      "asha@example.com" "s3cret" rfl (by decide) rfl (by decide)⟩

/-! ## Store operations -/

theorem insertUser_spec (db : Db) (w : World) (name email hash phone : String) :
    (insertUser db w name email hash phone).2.bookings = db.bookings ∧
    (insertUser db w name email hash phone).2.bookings_id_seq = db.bookings_id_seq ∧
    db.users_id_seq ≤ (insertUser db w name email hash phone).2.users_id_seq ∧
    ((∃ e, (insertUser db w name email hash phone).1 = .error e ∧
        (insertUser db w name email hash phone).2.users = db.users) ∨
      (∃ row, (insertUser db w name email hash phone).1 =
          .ok ⟨row.id, row.name, row.email, row.phone⟩ ∧
        (insertUser db w name email hash phone).2.users = db.users ++ [row] ∧
        (insertUser db w name email hash phone).2.users_id_seq = db.users_id_seq + 1 ∧
        userRow (db.users_id_seq + 1) name email hash phone = .ok row ∧
        (∀ u ∈ db.users, u.email ≠ row.email) ∧ w.fault = none)) := by
  unfold insertUser
  cases hf : w.fault with
  | some e => exact ⟨rfl, rfl, le_refl _, Or.inl ⟨e, rfl, rfl⟩⟩
  | none =>
    simp only
    cases hrow : userRow (db.users_id_seq + 1) name email hash phone with
    | error e => exact ⟨rfl, rfl, le_refl _, Or.inl ⟨e, rfl, rfl⟩⟩
    | ok row =>
      simp only
      by_cases hdup : db.users.any (fun u => u.email == row.email) = true
      · rw [if_pos hdup]
        exact ⟨rfl, rfl, Nat.le_succ _, Or.inl ⟨_, rfl, rfl⟩⟩
      · rw [if_neg hdup]
        refine ⟨rfl, rfl, Nat.le_succ _, Or.inr ⟨row, rfl, rfl, rfl, rfl, ?_, trivial⟩⟩
        intro u hu heq
        apply hdup
        rw [List.any_eq_true]
        exact ⟨u, hu, by simpa using heq⟩

theorem userRow_id (id : Nat) (name email hash phone : String) (row : User)
    (h : userRow id name email hash phone = .ok row) :
    row.id = id ∧ row.password_hash = hash ∧ varchar 255 email = some row.email := by
  unfold userRow varchar255 varchar20 at h
  cases h1 : varchar 255 name with
  | none => simp [h1, bind, Except.bind] at h
  | some n =>
    cases h2 : varchar 255 email with
    | none => simp [h1, h2, bind, Except.bind] at h
    | some e =>
      cases h3 : varchar 20 phone with
      | none => simp [h1, h2, h3, bind, Except.bind] at h
      | some p =>
        simp [h1, h2, h3, bind, Except.bind, pure, Except.pure] at h
        subst h
        exact ⟨rfl, rfl, rfl⟩

theorem varchar_fits (n : Nat) (s : String) (h : s.length ≤ n) : varchar n s = some s := by
  have h1 : s.data.length ≤ n := h
  rw [varchar, if_pos h1]

theorem userRow_fits (id : Nat) (name email hash phone : String)
    (hn : name.length ≤ 255) (he : email.length ≤ 255) (hp : phone.length ≤ 20) :
    userRow id name email hash phone = .ok ⟨id, name, email, hash, phone⟩ := by
  simp [userRow, varchar255, varchar20, varchar_fits, hn, he, hp, bind, Except.bind, pure,
    Except.pure]

theorem insertUser_consistent (db : Db) (w : World) (name email hash phone : String)
    (hc : db.Consistent) : (insertUser db w name email hash phone).2.Consistent := by
  obtain ⟨hb, hbs, hseq, hcases⟩ := insertUser_spec db w name email hash phone
  rcases hcases with ⟨e, _, husers⟩ | ⟨row, _, husers, hnext, hrow, hfresh, _⟩
  · refine ⟨?_, ?_, ?_, ?_, ?_⟩
    · rw [husers]; exact hc.emails
    · rw [husers]; intro u hu; exact le_trans (hc.userIds u hu) hseq
    · rw [hb, hbs]; exact hc.bookingIds
    · rw [hb]; exact hc.bookingKeys
    · rw [hb, husers]; exact hc.owners
  · refine ⟨?_, ?_, ?_, ?_, ?_⟩
    · rw [husers, List.map_append, List.nodup_append]
      refine ⟨hc.emails, by simp, ?_⟩
      intro x hx hx2
      simp only [List.map_cons, List.map_nil, List.mem_singleton] at hx2
      obtain ⟨u, hu, hux⟩ := List.mem_map.mp hx
      exact hfresh u hu (hux.trans hx2)
    · rw [husers, hnext]
      intro u hu
      rcases List.mem_append.mp hu with h | h
      · exact le_trans (hc.userIds u h) (Nat.le_succ _)
      · rw [List.mem_singleton] at h
        rw [h, (userRow_id _ _ _ _ _ _ hrow).1]
    · rw [hb, hbs]; exact hc.bookingIds
    · rw [hb]; exact hc.bookingKeys
    · rw [hb, husers]
      intro b hbm
      obtain ⟨u, hu, hid⟩ := hc.owners b hbm
      exact ⟨u, List.mem_append.mpr (Or.inl hu), hid⟩

theorem bookingRow_spec (id user_id : Nat)
    (service sub_service professional address datetime notes : String) (now : Nat)
    (row : Booking)
    (h : bookingRow id user_id service sub_service professional address datetime notes now =
      .ok row) :
    row.id = id ∧ row.user_id = user_id ∧ row.status = "pending" ∧ row.created_at = now ∧
      row.address = address ∧ row.notes = notes := by
  unfold bookingRow varchar255 at h
  cases h1 : varchar 255 service with
  | none => simp [h1, bind, Except.bind] at h
  | some s =>
    cases h2 : varchar 255 sub_service with
    | none => simp [h1, h2, bind, Except.bind] at h
    | some ss =>
      cases h3 : varchar 255 professional with
      | none => simp [h1, h2, h3, bind, Except.bind] at h
      | some p =>
        cases h4 : varchar 255 datetime with
        | none => simp [h1, h2, h3, h4, bind, Except.bind] at h
        | some d =>
          simp [h1, h2, h3, h4, bind, Except.bind, pure, Except.pure] at h
          subst h
          exact ⟨rfl, rfl, rfl, rfl, rfl, rfl⟩

theorem bookingRow_fits (id user_id : Nat)
    (service sub_service professional address datetime notes : String) (now : Nat)
    (h1 : service.length ≤ 255) (h2 : sub_service.length ≤ 255)
    (h3 : professional.length ≤ 255) (h4 : datetime.length ≤ 255) :
    bookingRow id user_id service sub_service professional address datetime notes now =
      .ok ⟨id, user_id, service, sub_service, professional, address, datetime, notes,
        "pending", now⟩ := by
  simp [bookingRow, varchar255, varchar_fits, h1, h2, h3, h4, bind, Except.bind, pure,
    Except.pure]

theorem insertBooking_spec (db : Db) (w : World) (user_id : Nat)
    (service sub_service professional address datetime notes : String) :
    (insertBooking db w user_id service sub_service professional address datetime notes).2.users
        = db.users ∧
    (insertBooking db w user_id service sub_service professional address datetime
        notes).2.users_id_seq = db.users_id_seq ∧
    db.bookings_id_seq ≤ (insertBooking db w user_id service sub_service professional address
        datetime notes).2.bookings_id_seq ∧
    ((∃ e, (insertBooking db w user_id service sub_service professional address datetime
          notes).1 = .error e ∧
        (insertBooking db w user_id service sub_service professional address datetime
          notes).2.bookings = db.bookings) ∨
      (∃ row, (insertBooking db w user_id service sub_service professional address datetime
          notes).1 = .ok row ∧
        (insertBooking db w user_id service sub_service professional address datetime
          notes).2.bookings = db.bookings ++ [row] ∧
        (insertBooking db w user_id service sub_service professional address datetime
          notes).2.bookings_id_seq = db.bookings_id_seq + 1 ∧
        bookingRow (db.bookings_id_seq + 1) user_id service sub_service professional address
          datetime notes w.now = .ok row ∧
        (∃ u ∈ db.users, u.id = user_id) ∧ w.fault = none)) := by
  unfold insertBooking
  cases hf : w.fault with
  | some e => exact ⟨rfl, rfl, le_refl _, Or.inl ⟨e, rfl, rfl⟩⟩
  | none =>
    simp only
    cases hrow : bookingRow (db.bookings_id_seq + 1) user_id service sub_service professional
        address datetime notes w.now with
    | error e => exact ⟨rfl, rfl, le_refl _, Or.inl ⟨e, rfl, rfl⟩⟩
    | ok row =>
      simp only
      by_cases hfk : db.users.any (fun u => u.id == user_id) = true
      · rw [if_pos hfk]
        refine ⟨rfl, rfl, Nat.le_succ _, Or.inr ⟨row, rfl, rfl, rfl, rfl, ?_, trivial⟩⟩
        obtain ⟨u, hu, hid⟩ := List.any_eq_true.mp hfk
        exact ⟨u, hu, by simpa using hid⟩
      · rw [if_neg hfk]
        exact ⟨rfl, rfl, Nat.le_succ _, Or.inl ⟨_, rfl, rfl⟩⟩

theorem insertBooking_consistent (db : Db) (w : World) (user_id : Nat)
    (service sub_service professional address datetime notes : String) (hc : db.Consistent) :
    (insertBooking db w user_id service sub_service professional address datetime
      notes).2.Consistent := by
  obtain ⟨hu, hus, hseq, hcases⟩ :=
    insertBooking_spec db w user_id service sub_service professional address datetime notes
  rcases hcases with ⟨e, _, hb⟩ | ⟨row, _, hb, hnext, hrow, hfk, _⟩
  · refine ⟨?_, ?_, ?_, ?_, ?_⟩
    · rw [hu]; exact hc.emails
    · rw [hu, hus]; exact hc.userIds
    · rw [hb]; intro b hbm; exact le_trans (hc.bookingIds b hbm) hseq
    · rw [hb]; exact hc.bookingKeys
    · rw [hb, hu]; exact hc.owners
  · have hid := (bookingRow_spec _ _ _ _ _ _ _ _ _ _ hrow)
    refine ⟨?_, ?_, ?_, ?_, ?_⟩
    · rw [hu]; exact hc.emails
    · rw [hu, hus]; exact hc.userIds
    · rw [hb, hnext]
      intro b hbm
      rcases List.mem_append.mp hbm with h | h
      · exact le_trans (hc.bookingIds b h) (Nat.le_succ _)
      · rw [List.mem_singleton] at h
        rw [h, hid.1]
    · rw [hb, List.map_append, List.nodup_append]
      refine ⟨hc.bookingKeys, by simp, ?_⟩
      intro x hx hx2
      simp only [List.map_cons, List.map_nil, List.mem_singleton] at hx2
      obtain ⟨b, hbm, hbx⟩ := List.mem_map.mp hx
      have := hc.bookingIds b hbm
      rw [hbx, hx2, hid.1] at this
      omega
    · rw [hb, hu]
      intro b hbm
      rcases List.mem_append.mp hbm with h | h
      · exact hc.owners b h
      · rw [List.mem_singleton] at h
        rw [h, hid.2.1]
        exact hfk

/-! ## Invariants of the router -/

theorem register_db (env : Env) (w : World) (db : Db) (body : RegisterBody) :
    (register env w db body).2 = db ∨
      (register env w db body).2 =
        (insertUser db w (orElse body.name "") (orElse body.email "")
          (env.bcryptHash (orElse body.password "") 10 w.salt) (orElse body.phone "")).2 := by
  by_cases he : truthy body.email = true
  · by_cases hp : truthy body.password = true
    · right
      rw [register_present env w db body he hp]
      generalize insertUser db w (orElse body.name "") (orElse body.email "")
        (env.bcryptHash (orElse body.password "") 10 w.salt) (orElse body.phone "") = r
      obtain ⟨res, db1⟩ := r
      cases res <;> rfl
    · left
      simp [register, registerTry, hp]
  · left
    simp [register, registerTry, he]

theorem createBooking_db (w : World) (db : Db) (user : TokenPayload) (body : BookingBody) :
    (createBooking w db user body).2 = db ∨
      (createBooking w db user body).2 =
        (insertBooking db w user.id (orElse body.service "") (orElse body.subService "")
          (orElse body.professional "") (orElse body.address "") (orElse body.datetime "")
          (orElse body.notes "")).2 := by
  unfold createBooking
  split
  · exact Or.inl rfl
  · right
    generalize insertBooking db w user.id (orElse body.service "") (orElse body.subService "")
      (orElse body.professional "") (orElse body.address "") (orElse body.datetime "")
      (orElse body.notes "") = r
    obtain ⟨res, db1⟩ := r
    cases res <;> rfl

theorem protect_db (env : Env) (w : World) (authorization : Option String) (db : Db)
    (handler : TokenPayload → Outcome × Db) :
    (protect env w authorization db handler).2 = db ∨
      ∃ user, (protect env w authorization db handler).2 = (handler user).2 := by
  unfold protect
  cases auth env w authorization with
  | respond status body => exact Or.inl rfl
  | next user => exact Or.inr ⟨user, rfl⟩

/-- The store after one request: unchanged, or the result of one insert. -/
theorem step_db (env : Env) (app : App) (w : World) (req : Request) :
    (step env app w req).2.db = app.db ∨
      (∃ name email hash phone,
        (step env app w req).2.db = (insertUser app.db w name email hash phone).2) ∨
      ∃ user_id service sub_service professional address datetime notes,
        (step env app w req).2.db =
          (insertBooking app.db w user_id service sub_service professional address datetime
            notes).2 := by
  cases req with
  | register body =>
    rcases register_db env w app.db body with h | h
    · exact Or.inl h
    · exact Or.inr (Or.inl ⟨_, _, _, _, h⟩)
  | login body => exact Or.inl rfl
  | services => exact Or.inl rfl
  | professionals service => exact Or.inl rfl
  | createBooking authorization body =>
    rcases protect_db env w authorization app.db
        (fun user => createBooking w app.db user body) with h | ⟨user, h⟩
    · exact Or.inl h
    · rcases createBooking_db w app.db user body with h2 | h2
      · exact Or.inl (h.trans h2)
      · exact Or.inr (Or.inr ⟨_, _, _, _, _, _, _, h.trans h2⟩)
  | listBookings authorization =>
    rcases protect_db env w authorization app.db
        (fun user => (listBookings w app.db user, app.db)) with h | ⟨user, h⟩
    · exact Or.inl h
    · exact Or.inl h
  | paymentConfirm authorization body =>
    rcases protect_db env w authorization app.db
        (fun _ => (paymentConfirm body, app.db)) with h | ⟨user, h⟩
    · exact Or.inl h
    · exact Or.inl h
  | health => exact Or.inl rfl

theorem step_consistent (env : Env) (app : App) (w : World) (req : Request)
    (hc : app.db.Consistent) : (step env app w req).2.db.Consistent := by
  rcases step_db env app w req with h | ⟨n, e, hs, p, h⟩ | ⟨u, s, ss, p, a, d, nt, h⟩
  · rw [h]; exact hc
  · rw [h]; exact insertUser_consistent _ _ _ _ _ _ hc
  · rw [h]; exact insertBooking_consistent _ _ _ _ _ _ _ _ _ hc

/-- Rows are never changed or removed: every request keeps both tables as they
were and at most appends to them. -/
theorem step_grows (env : Env) (app : App) (w : World) (req : Request) :
    (∃ more, (step env app w req).2.db.users = app.db.users ++ more) ∧
      ∃ more, (step env app w req).2.db.bookings = app.db.bookings ++ more := by
  rcases step_db env app w req with h | ⟨n, e, hs, p, h⟩ | ⟨u, s, ss, p, a, d, nt, h⟩
  · rw [h]; exact ⟨⟨[], by simp⟩, ⟨[], by simp⟩⟩
  · rw [h]
    obtain ⟨hb, _, _, hcases⟩ := insertUser_spec app.db w n e hs p
    refine ⟨?_, ⟨[], by simp [hb]⟩⟩
    rcases hcases with ⟨_, _, hu⟩ | ⟨row, _, hu, _⟩
    · exact ⟨[], by simp [hu]⟩
    · exact ⟨[row], hu⟩
  · rw [h]
    obtain ⟨hu, _, _, hcases⟩ := insertBooking_spec app.db w u s ss p a d nt
    refine ⟨⟨[], by simp [hu]⟩, ?_⟩
    rcases hcases with ⟨_, _, hb⟩ | ⟨row, _, hb, _⟩
    · exact ⟨[], by simp [hb]⟩
    · exact ⟨[row], hb⟩

theorem run_consistent (env : Env) (trace : List (World × Request)) :
    ∀ app : App, app.db.Consistent → (run env app trace).db.Consistent := by
  induction trace with
  | nil => intro app hc; exact hc
  | cons x rest ih =>
    intro app hc
    obtain ⟨w, r⟩ := x
    exact ih _ (step_consistent env app w r hc)

theorem run_grows (env : Env) (trace : List (World × Request)) :
    ∀ app : App, (∃ more, (run env app trace).db.users = app.db.users ++ more) ∧
      ∃ more, (run env app trace).db.bookings = app.db.bookings ++ more := by
  induction trace with
  | nil => intro app; exact ⟨⟨[], by simp [run]⟩, ⟨[], by simp [run]⟩⟩
  | cons x rest ih =>
    intro app
    obtain ⟨w, r⟩ := x
    obtain ⟨⟨m1, h1⟩, ⟨m2, h2⟩⟩ := ih (step env app w r).2
    obtain ⟨⟨n1, g1⟩, ⟨n2, g2⟩⟩ := step_grows env app w r
    simp only [run]
    exact ⟨⟨n1 ++ m1, by rw [h1, g1, List.append_assoc]⟩,
      ⟨n2 ++ m2, by rw [h2, g2, List.append_assoc]⟩⟩

theorem empty_consistent : Db.empty.Consistent :=
  ⟨by simp [Db.empty], by simp [Db.empty], by simp [Db.empty], by simp [Db.empty],
    by simp [Db.empty]⟩

theorem reachable_consistent (env : Env) (app : App) (h : Reachable env app) :
    app.db.Consistent := by
  obtain ⟨services, professionals, trace, rfl⟩ := h
  exact run_consistent env trace _ empty_consistent

/-! ## Booking service -/

theorem createBooking_present (w : World) (db : Db) (user : TokenPayload) (body : BookingBody)
    (hs : truthy body.service = true) (ha : truthy body.address = true)
    (hd : truthy body.datetime = true) :
    createBooking w db user body =
      match insertBooking db w user.id (orElse body.service "") (orElse body.subService "")
          (orElse body.professional "") (orElse body.address "") (orElse body.datetime "")
          (orElse body.notes "") with
      | (.error e, db1) => (.uncaught e, db1)
      | (.ok row, db1) => (.response 200 (.booking row), db1) := by
  simp [createBooking, hs, ha, hd]

theorem createBooking_missing (w : World) (db : Db) (user : TokenPayload) (body : BookingBody)
    (h : truthy body.service = false ∨ truthy body.address = false ∨
      truthy body.datetime = false) :
    createBooking w db user body = (.response 400 (.error "Missing required fields"), db) := by
  rcases h with h | h | h <;> simp [createBooking, h]

theorem createBooking_created (w : World) (db : Db) (user : TokenPayload) (body : BookingBody)
    (b : Booking) (status : Nat)
    (h : (createBooking w db user body).1 = .response status (.booking b)) :
    (insertBooking db w user.id (orElse body.service "") (orElse body.subService "")
        (orElse body.professional "") (orElse body.address "") (orElse body.datetime "")
        (orElse body.notes "")).1 = .ok b ∧
      (createBooking w db user body).2 =
        (insertBooking db w user.id (orElse body.service "") (orElse body.subService "")
          (orElse body.professional "") (orElse body.address "") (orElse body.datetime "")
          (orElse body.notes "")).2 := by
  unfold createBooking at h ⊢
  split at h
  · simp at h
  · rename_i hpresent
    rw [if_neg hpresent]
    generalize insertBooking db w user.id (orElse body.service "") (orElse body.subService "")
      (orElse body.professional "") (orElse body.address "") (orElse body.datetime "")
      (orElse body.notes "") = r at h ⊢
    obtain ⟨res, db1⟩ := r
    cases res with
    | error e => simp at h
    | ok row =>
      simp only [Outcome.response.injEq, Body.booking.injEq] at h
      exact ⟨by rw [h.2], rfl⟩

theorem listBookings_rows (w : World) (db : Db) (user : TokenPayload) (rows : List Booking)
    (status : Nat) (h : listBookings w db user = .response status (.bookings rows)) :
    rows = (db.bookings.filter (fun b => b.user_id == user.id)).insertionSort newerFirst := by
  unfold listBookings selectBookingsByUser at h
  cases hf : w.fault with
  | some e => simp [hf] at h
  | none =>
    simp only [hf, Outcome.response.injEq, Body.bookings.injEq] at h
    exact h.2.symm

theorem mem_listBookings (w : World) (db : Db) (user : TokenPayload) (rows : List Booking)
    (status : Nat) (h : listBookings w db user = .response status (.bookings rows))
    (r : Booking) : r ∈ rows ↔ r ∈ db.bookings ∧ r.user_id = user.id := by
  rw [listBookings_rows w db user rows status h,
    (List.perm_insertionSort newerFirst _).mem_iff, List.mem_filter]
  simp

theorem protect_next (env : Env) (w : World) (authorization : Option String) (db : Db)
    (handler : TokenPayload → Outcome × Db) (user : TokenPayload)
    (h : auth env w authorization = .next user) :
    protect env w authorization db handler = handler user := by
  simp [protect, h]

/-- C2: in every reachable state, if `POST /api/bookings` authenticated as `A`
(any body) answers with the created record `b`, then after any further
requests `GET /api/bookings` authenticated as `B` with a different id returns
only stored records whose `user_id` is the id in `B`'s token; `b` carries
`A`'s token id as `user_id`, `b` is not among the returned records, and no
returned record has `b`'s id. -/
theorem bookings_isolated (env : Env) (app : App) (hreach : Reachable env app)
    (w1 : World) (authA : Option String) (A : TokenPayload) (body : BookingBody)
    (later : List (World × Request))
    (w2 : World) (authB : Option String) (B : TokenPayload)
    (b : Booking) (rows : List Booking)
    (hA : auth env w1 authA = .next A) (hB : auth env w2 authB = .next B)
    (hAB : A.id ≠ B.id)
    (hcreate : (step env app w1 (.createBooking authA body)).1 = .response 200 (.booking b))
    (hlist : (step env (run env (step env app w1 (.createBooking authA body)).2 later) w2
      (.listBookings authB)).1 = .response 200 (.bookings rows)) :
    b.user_id = A.id ∧
      (∀ r ∈ rows, r.user_id = B.id ∧
        r ∈ (run env (step env app w1 (.createBooking authA body)).2 later).db.bookings) ∧
      b ∉ rows ∧ ∀ r ∈ rows, r.id ≠ b.id := by
  have hc1 : (createBooking w1 app.db A body).1 = .response 200 (.booking b) := by
    simpa [step, protect_next env w1 authA app.db _ A hA] using hcreate
  obtain ⟨hins, hdb⟩ := createBooking_created w1 app.db A body b 200 hc1
  obtain ⟨_, _, _, hcases⟩ := insertBooking_spec app.db w1 A.id (orElse body.service "")
    (orElse body.subService "") (orElse body.professional "") (orElse body.address "")
    (orElse body.datetime "") (orElse body.notes "")
  have hstepdb : (step env app w1 (.createBooking authA body)).2.db =
      (createBooking w1 app.db A body).2 := by
    simp [step, protect_next env w1 authA app.db _ A hA]
  rcases hcases with ⟨e, he, _⟩ | ⟨row, hrow, hbookings, _, hspec, _, _⟩
  · rw [hins] at he
    cases he
  · rw [hins] at hrow
    have hrb : b = row := by
      injection hrow
    subst hrb
    have howner := (bookingRow_spec _ _ _ _ _ _ _ _ _ _ hspec).2.1
    have hmem1 : b ∈ (step env app w1 (.createBooking authA body)).2.db.bookings := by
      rw [hstepdb, hdb, hbookings]
      simp
    obtain ⟨_, ⟨more, hmore⟩⟩ := run_grows env later (step env app w1 (.createBooking authA body)).2
    have hmem2 : b ∈ (run env (step env app w1 (.createBooking authA body)).2 later).db.bookings := by
      rw [hmore]
      exact List.mem_append.mpr (Or.inl hmem1)
    have hcons : (run env (step env app w1 (.createBooking authA body)).2 later).db.Consistent :=
      run_consistent env later _
        (step_consistent env app w1 _ (reachable_consistent env app hreach))
    have hl : listBookings w2
        (run env (step env app w1 (.createBooking authA body)).2 later).db B =
          .response 200 (.bookings rows) := by
      simpa [step, protect_next env w2 authB _ _ B hB] using hlist
    have hrows := mem_listBookings w2 _ B rows 200 hl
    refine ⟨howner, ?_, ?_, ?_⟩
    · intro r hr
      exact ⟨((hrows r).mp hr).2, ((hrows r).mp hr).1⟩
    · intro hb
      exact hAB (howner.symm.trans ((hrows b).mp hb).2)
    · intro r hr hid
      have hrm := ((hrows r).mp hr).1
      have heq : r = b :=
        List.inj_on_of_nodup_map hcons.bookingKeys hrm hmem2 hid
      rw [heq] at hr
      exact hAB (howner.symm.trans ((hrows b).mp hr).2)

/-- C2 on the two sample users: the first creates a booking, the second creates
one later and then lists. -/
theorem bookings_isolated_witness :
    (⟨1, 1, "Plumbing", "", "", "1 Main St", "2025-01-01 10:00", "", "pending", 0⟩ :
        Booking).user_id = 1 ∧
      (∀ r ∈ [(⟨2, 2, "Plumbing", "", "", "1 Main St", "2025-01-01 10:00", "", "pending", 5⟩ :
          Booking)],
        r.user_id = 2 ∧
          r ∈ (run sampleEnv (step sampleEnv sampleApp calm
            (.createBooking (some "Bearer jwt.asha@example.com") sampleBooking)).2
            [(⟨5, "salt", none⟩,
              .createBooking (some "Bearer jwt.ben@example.com") sampleBooking)]).db.bookings) ∧
      (⟨1, 1, "Plumbing", "", "", "1 Main St", "2025-01-01 10:00", "", "pending", 0⟩ : Booking) ∉
        [(⟨2, 2, "Plumbing", "", "", "1 Main St", "2025-01-01 10:00", "", "pending", 5⟩ :
          Booking)] ∧
      ∀ r ∈ [(⟨2, 2, "Plumbing", "", "", "1 Main St", "2025-01-01 10:00", "", "pending", 5⟩ :
          Booking)],
        r.id ≠ (⟨1, 1, "Plumbing", "", "", "1 Main St", "2025-01-01 10:00", "", "pending", 0⟩ :
          Booking).id :=
  bookings_isolated sampleEnv sampleApp ⟨sampleServices, sampleProfessionals, _, rfl⟩
    calm (some "Bearer jwt.asha@example.com") ⟨1, "asha@example.com"⟩ sampleBooking
    [(⟨5, "salt", none⟩, .createBooking (some "Bearer jwt.ben@example.com") sampleBooking)]
    ⟨9, "salt", none⟩ (some "Bearer jwt.ben@example.com") ⟨2, "ben@example.com"⟩
    ⟨1, 1, "Plumbing", "", "", "1 Main St", "2025-01-01 10:00", "", "pending", 0⟩
    [⟨2, 2, "Plumbing", "", "", "1 Main St", "2025-01-01 10:00", "", "pending", 5⟩]
    (by decide) (by decide) (by decide) (by decide) (by decide)

theorem insertBooking_accepted (db : Db) (w : World) (user_id : Nat)
    (service sub_service professional address datetime notes : String)
    (hw : w.fault = none) (hfk : ∃ u ∈ db.users, u.id = user_id)
    (h1 : service.length ≤ 255) (h2 : sub_service.length ≤ 255)
    (h3 : professional.length ≤ 255) (h4 : datetime.length ≤ 255) :
    insertBooking db w user_id service sub_service professional address datetime notes =
      (.ok ⟨db.bookings_id_seq + 1, user_id, service, sub_service, professional, address,
          datetime, notes, "pending", w.now⟩,
        ⟨db.users, db.bookings ++ [⟨db.bookings_id_seq + 1, user_id, service, sub_service,
          professional, address, datetime, notes, "pending", w.now⟩], db.users_id_seq,
          db.bookings_id_seq + 1⟩) := by
  have hany : db.users.any (fun u => u.id == user_id) = true := by
    obtain ⟨u, hu, hid⟩ := hfk
    exact List.any_eq_true.mpr ⟨u, hu, by simpa using hid⟩
  simp [insertBooking, hw, bookingRow_fits _ _ _ _ _ _ _ _ _ h1 h2 h3 h4, hany]

set_option maxRecDepth 100000 in
/-- C8, as stated, fails: with both sample users registered and a healthy store,
an authenticated request whose service has 256 characters (all three required
fields present) appends no record and gets no record back, the insert being
rejected by the `VARCHAR(255)` column; and so does an ordinary request while
the store connection is down. -/
theorem createBooking_rejected_by_store :
    (step sampleEnv sampleApp calm (.createBooking (some "Bearer jwt.asha@example.com")
        ⟨some (String.mk (List.replicate 256 'a')), none, none, some "1 Main St",
          some "2025-01-01 10:00", none⟩)).1 = .uncaught tooLong255 ∧
      (step sampleEnv sampleApp calm (.createBooking (some "Bearer jwt.asha@example.com")
        ⟨some (String.mk (List.replicate 256 'a')), none, none, some "1 Main St",
          some "2025-01-01 10:00", none⟩)).2.db.bookings = sampleApp.db.bookings ∧
      (step sampleEnv sampleApp outage
        (.createBooking (some "Bearer jwt.asha@example.com") sampleBooking)).1 =
          .uncaught ⟨some "ECONNREFUSED", "Error: connect ECONNREFUSED"⟩ ∧
      (step sampleEnv sampleApp outage
        (.createBooking (some "Bearer jwt.asha@example.com") sampleBooking)).2.db =
          sampleApp.db := by
  decide

/-- C8, amended: for every authenticated create-booking request: if service,
address or datetime is absent or empty the answer is 400
`Missing required fields` and the state is unchanged; otherwise, when the store
query does not fail for an outside reason, the token's id is the id of a
stored user, and service, subService, professional and datetime have at most
255 characters, exactly one record is appended, with the next id of the
sequence, `user_id` the token's id, the request's service, address and
datetime, absent subService, professional and notes stored as the empty
string, status `pending`, and the response is that stored record. -/
theorem createBooking_contract (env : Env) (app : App) (w : World)
    (authorization : Option String) (user : TokenPayload) (body : BookingBody)
    (hauth : auth env w authorization = .next user) :
    ((body.service = none ∨ body.service = some "" ∨ body.address = none ∨
        body.address = some "" ∨ body.datetime = none ∨ body.datetime = some "") →
      step env app w (.createBooking authorization body) =
        (.response 400 (.error "Missing required fields"), app)) ∧
    (∀ service address datetime, body.service = some service → service ≠ "" →
      body.address = some address → address ≠ "" →
      body.datetime = some datetime → datetime ≠ "" →
      w.fault = none → (∃ u ∈ app.db.users, u.id = user.id) →
      service.length ≤ 255 → (orElse body.subService "").length ≤ 255 →
      (orElse body.professional "").length ≤ 255 → datetime.length ≤ 255 →
      ∃ row : Booking,
        step env app w (.createBooking authorization body) =
          (.response 200 (.booking row),
            ⟨⟨app.db.users, app.db.bookings ++ [row], app.db.users_id_seq,
              app.db.bookings_id_seq + 1⟩, app.services, app.professionals⟩) ∧
        row.id = app.db.bookings_id_seq + 1 ∧ row.user_id = user.id ∧
        row.service = service ∧ row.address = address ∧ row.datetime = datetime ∧
        row.sub_service = orElse body.subService "" ∧
        row.professional = orElse body.professional "" ∧
        row.notes = orElse body.notes "" ∧
        (body.subService = none → row.sub_service = "") ∧
        (body.professional = none → row.professional = "") ∧
        (body.notes = none → row.notes = "") ∧
        row.status = "pending" ∧ row.created_at = w.now) := by
  constructor
  · intro hmissing
    have hfalsy : truthy body.service = false ∨ truthy body.address = false ∨
        truthy body.datetime = false := by
      rcases hmissing with h | h | h | h | h | h
      · exact Or.inl ((truthy_eq_false_iff _).mpr (Or.inl h))
      · exact Or.inl ((truthy_eq_false_iff _).mpr (Or.inr h))
      · exact Or.inr (Or.inl ((truthy_eq_false_iff _).mpr (Or.inl h)))
      · exact Or.inr (Or.inl ((truthy_eq_false_iff _).mpr (Or.inr h)))
      · exact Or.inr (Or.inr ((truthy_eq_false_iff _).mpr (Or.inl h)))
      · exact Or.inr (Or.inr ((truthy_eq_false_iff _).mpr (Or.inr h)))
    simp [step, protect_next env w authorization app.db _ user hauth,
      createBooking_missing w app.db user body hfalsy]
  · intro service address datetime hs hsne ha hane hd hdne hw hfk h1 h2 h3 h4
    have ts : truthy body.service = true := by rw [hs]; exact truthy_some _ hsne
    have ta : truthy body.address = true := by rw [ha]; exact truthy_some _ hane
    have td : truthy body.datetime = true := by rw [hd]; exact truthy_some _ hdne
    have os : orElse body.service "" = service := by rw [hs]; exact orElse_some _ _ hsne
    have oa : orElse body.address "" = address := by rw [ha]; exact orElse_some _ _ hane
    have od : orElse body.datetime "" = datetime := by rw [hd]; exact orElse_some _ _ hdne
    refine ⟨⟨app.db.bookings_id_seq + 1, user.id, service, orElse body.subService "",
      orElse body.professional "", address, datetime, orElse body.notes "", "pending", w.now⟩,
      ?_, rfl, rfl, rfl, rfl, rfl, rfl, rfl, rfl, ?_, ?_, ?_, rfl, rfl⟩
    · simp only [step, protect_next env w authorization app.db _ user hauth]
      rw [createBooking_present w app.db user body ts ta td, os, oa, od,
        insertBooking_accepted app.db w user.id service _ _ address datetime _ hw hfk h1 h2 h3 h4]
    · intro h; simp [h, orElse]
    · intro h; simp [h, orElse]
    · intro h; simp [h, orElse]

/-- The amended C8 on a request without address and on the sample booking. -/
theorem createBooking_contract_witness :
    (step sampleEnv sampleApp calm (.createBooking (some "Bearer jwt.asha@example.com")
        ⟨some "Plumbing", none, none, none, some "2025-01-01 10:00", none⟩) =
        (.response 400 (.error "Missing required fields"), sampleApp)) ∧
    ∃ row : Booking,
      step sampleEnv sampleApp calm
          (.createBooking (some "Bearer jwt.asha@example.com") sampleBooking) =
        (.response 200 (.booking row),
          ⟨⟨sampleApp.db.users, sampleApp.db.bookings ++ [row], sampleApp.db.users_id_seq,
            sampleApp.db.bookings_id_seq + 1⟩, sampleApp.services, sampleApp.professionals⟩) ∧
      row.id = sampleApp.db.bookings_id_seq + 1 ∧
      row.user_id = (⟨1, "asha@example.com"⟩ : TokenPayload).id ∧
      row.service = "Plumbing" ∧ row.address = "1 Main St" ∧
      row.datetime = "2025-01-01 10:00" ∧
      row.sub_service = orElse sampleBooking.subService "" ∧
      row.professional = orElse sampleBooking.professional "" ∧
      row.notes = orElse sampleBooking.notes "" ∧
      (sampleBooking.subService = none → row.sub_service = "") ∧
      (sampleBooking.professional = none → row.professional = "") ∧
      (sampleBooking.notes = none → row.notes = "") ∧
      row.status = "pending" ∧ row.created_at = calm.now :=
  ⟨(createBooking_contract sampleEnv sampleApp calm (some "Bearer jwt.asha@example.com")
      ⟨1, "asha@example.com"⟩ ⟨some "Plumbing", none, none, none, some "2025-01-01 10:00", none⟩
      (by decide)).1 (Or.inr (Or.inr (Or.inl rfl))),
    (createBooking_contract sampleEnv sampleApp calm (some "Bearer jwt.asha@example.com")
      ⟨1, "asha@example.com"⟩ sampleBooking (by decide)).2
      "Plumbing" "1 Main St" "2025-01-01 10:00" rfl (by decide) rfl (by decide) rfl (by decide)
      rfl ⟨⟨1, "Asha", "asha@example.com", "hash.s3cret", ""⟩, by decide, rfl⟩
      (by decide) (by decide) (by decide) (by decide)⟩

/-! ## Login -/

theorem login_fault (env : Env) (w : World) (db : Db) (body : LoginBody) (e : JsError)
    (h : w.fault = some e) : login env w db body = .response 500 (.error "Login failed") := by
  simp [login, loginTry, selectUsersByEmail, h, bind, Except.bind]

theorem login_no_email (env : Env) (w : World) (db : Db) (body : LoginBody)
    (hw : w.fault = none) (he : body.email = none) :
    login env w db body = .response 401 (.error "Invalid credentials") := by
  simp [login, loginTry, selectUsersByEmail, hw, he, bind, Except.bind, pure, Except.pure]

theorem login_healthy (env : Env) (w : World) (db : Db) (body : LoginBody) (email : String)
    (hw : w.fault = none) (he : body.email = some email) :
    login env w db body =
      match (db.users.filter (fun u => u.email == email)).head? with
      | none => .response 401 (.error "Invalid credentials")
      | some user =>
        match body.password with
        | none => .response 500 (.error "Login failed")
        | some password =>
          if env.bcryptCompare password user.password_hash then
            .response 200 (.session ⟨user.id, user.name, user.email, user.phone⟩
              (signToken env w user.id user.email))
          else .response 401 (.error "Invalid credentials") := by
  simp only [login, loginTry, selectUsersByEmail, hw, he, bind, Except.bind]
  cases (db.users.filter (fun u => u.email == email)).head? with
  | none => rfl
  | some user =>
    cases body.password with
    | none => rfl
    | some password =>
      simp only [bcryptCompare]
      cases env.bcryptCompare password user.password_hash <;> rfl

theorem head_filter_mem (db : Db) (email : String) (user : User)
    (h : (db.users.filter (fun u => u.email == email)).head? = some user) :
    user ∈ db.users ∧ user.email = email := by
  have hmem : user ∈ db.users.filter (fun u => u.email == email) := List.mem_of_mem_head? h
  rw [List.mem_filter] at hmem
  exact ⟨hmem.1, by simpa using hmem.2⟩

/-- C5, as stated, fails: with `asha@example.com` registered under the password
`s3cret`, a login with the wrong password while the store connection is down,
and a login that gives no password at all on a healthy store, are both answered
500 `Login failed` instead of 401 `Invalid credentials`. -/
theorem login_answers_500 :
    (∃ u ∈ sampleApp.db.users, u.email = "asha@example.com" ∧
        sampleEnv.bcryptCompare "wrong" u.password_hash = false) ∧
      login sampleEnv outage sampleApp.db ⟨some "asha@example.com", some "wrong"⟩ =
        .response 500 (.error "Login failed") ∧
      login sampleEnv calm sampleApp.db ⟨some "asha@example.com", none⟩ =
        .response 500 (.error "Login failed") := by
  decide

theorem login_classified (env : Env) (w : World) (db : Db) (body : LoginBody) :
    (w.fault = none → (∀ u ∈ db.users, body.email ≠ some u.email) →
      login env w db body = .response 401 (.error "Invalid credentials")) ∧
    (w.fault = none → ∀ password, body.password = some password →
      (∀ u ∈ db.users, body.email = some u.email →
        env.bcryptCompare password u.password_hash = false) →
      login env w db body = .response 401 (.error "Invalid credentials")) ∧
    (∃ status payload, login env w db body = .response status payload ∧
      (status = 200 ∨ status = 401 ∨ status = 500) ∧
      (status ≠ 200 → (login env w db body).token? = none)) ∧
    (∀ token, (login env w db body).token? = some token →
      w.fault = none ∧ ∃ u ∈ db.users, ∃ password, body.email = some u.email ∧
        body.password = some password ∧
        env.bcryptCompare password u.password_hash = true ∧
        token = signToken env w u.id u.email) := by
  obtain hw | ⟨e, hw⟩ : w.fault = none ∨ ∃ e, w.fault = some e := by
    cases w.fault <;> simp
  swap
  · have h500 := login_fault env w db body e hw
    refine ⟨fun h => (by rw [hw] at h; cases h), fun h => (by rw [hw] at h; cases h), ?_, ?_⟩
    · exact ⟨500, _, h500, Or.inr (Or.inr rfl), fun _ => by rw [h500]; rfl⟩
    · intro token ht
      rw [h500] at ht
      cases ht
  obtain he | ⟨email, he⟩ : body.email = none ∨ ∃ v, body.email = some v := by
    cases body.email <;> simp
  · have h401 := login_no_email env w db body hw he
    refine ⟨fun _ _ => h401, fun _ _ _ _ => h401, ?_, ?_⟩
    · exact ⟨401, _, h401, Or.inr (Or.inl rfl), fun _ => by rw [h401]; rfl⟩
    · intro token ht
      rw [h401] at ht
      cases ht
  have hl := login_healthy env w db body email hw he
  cases hhead : (db.users.filter (fun u => u.email == email)).head? with
  | none =>
    rw [hhead] at hl
    refine ⟨fun _ _ => hl, fun _ _ _ _ => hl, ?_, ?_⟩
    · exact ⟨401, _, hl, Or.inr (Or.inl rfl), fun _ => by rw [hl]; rfl⟩
    · intro token ht
      rw [hl] at ht
      cases ht
  | some user =>
    obtain ⟨hmem, hemail⟩ := head_filter_mem db email user hhead
    have hue : body.email = some user.email := by rw [he, hemail]
    rw [hhead] at hl
    obtain hp | ⟨password, hp⟩ : body.password = none ∨ ∃ v, body.password = some v := by
      cases body.password <;> simp
    · rw [hp] at hl
      refine ⟨?_, ?_, ?_, ?_⟩
      · intro _ hnone
        exact absurd hue (hnone user hmem)
      · intro _ password h
        rw [hp] at h
        cases h
      · exact ⟨500, _, hl, Or.inr (Or.inr rfl), fun _ => by rw [hl]; rfl⟩
      · intro token ht
        rw [hl] at ht
        cases ht
    · rw [hp] at hl
      cases hcmp : env.bcryptCompare password user.password_hash with
      | false =>
        simp [hcmp] at hl
        refine ⟨fun _ _ => hl, fun _ _ _ _ => hl, ?_, ?_⟩
        · exact ⟨401, _, hl, Or.inr (Or.inl rfl), fun _ => by rw [hl]; rfl⟩
        · intro token ht
          rw [hl] at ht
          cases ht
      | true =>
        simp [hcmp] at hl
        refine ⟨?_, ?_, ?_, ?_⟩
        · intro _ hnone
          exact absurd hue (hnone user hmem)
        · intro _ p2 hp2 hall
          rw [hp] at hp2
          have hpp : password = p2 := Option.some.inj hp2
          subst hpp
          have hfalse := hall user hmem hue
          rw [hcmp] at hfalse
          cases hfalse
        · exact ⟨200, _, hl, Or.inl rfl, fun h => absurd rfl h⟩
        · intro token ht
          rw [hl] at ht
          simp only [Outcome.token?, Body.token?, Option.some.injEq] at ht
          exact ⟨hw, user, hmem, password, hue, hp, hcmp, ht.symm⟩

theorem login_absent_password (env : Env) (w : World) (db : Db) (body : LoginBody)
    (hw : w.fault = none) (hp : body.password = none)
    (hstored : ∃ u ∈ db.users, body.email = some u.email) :
    login env w db body = .response 500 (.error "Login failed") := by
  obtain ⟨u, hu, he⟩ := hstored
  rw [login_healthy env w db body u.email hw he]
  have hmem : u ∈ db.users.filter (fun v => v.email == u.email) :=
    List.mem_filter.mpr ⟨hu, by simp⟩
  cases hhead : (db.users.filter (fun v => v.email == u.email)).head? with
  | none =>
    rw [List.head?_eq_none_iff] at hhead
    rw [hhead] at hmem
    cases hmem
  | some user => simp [hp]

/-- C5, amended: for every store state and every login request: when the store
query does not fail for an outside reason, if no stored user has the given
email, or a password is given and its comparison with the stored hash of
every user with that email fails, the answer is 401 `Invalid credentials`;
when the store query fails, or it succeeds and the password is absent for a
stored email, the answer is 500 `Login failed`; and in every case the handler
answers 200, 401 or 500 and a token is returned only when the store query
succeeded, a stored user has that email and the comparison of the given
password with that user's hash succeeded. -/
theorem login_contract (env : Env) (w : World) (db : Db) (body : LoginBody) :
    (w.fault = none → (∀ u ∈ db.users, body.email ≠ some u.email) →
      login env w db body = .response 401 (.error "Invalid credentials")) ∧
    (w.fault = none → ∀ password, body.password = some password →
      (∀ u ∈ db.users, body.email = some u.email →
        env.bcryptCompare password u.password_hash = false) →
      login env w db body = .response 401 (.error "Invalid credentials")) ∧
    (∀ e, w.fault = some e →
      login env w db body = .response 500 (.error "Login failed")) ∧
    (w.fault = none → body.password = none →
      (∃ u ∈ db.users, body.email = some u.email) →
      login env w db body = .response 500 (.error "Login failed")) ∧
    (∃ status payload, login env w db body = .response status payload ∧
      (status = 200 ∨ status = 401 ∨ status = 500) ∧
      (status ≠ 200 → (login env w db body).token? = none)) ∧
    (∀ token, (login env w db body).token? = some token →
      w.fault = none ∧ ∃ u ∈ db.users, ∃ password, body.email = some u.email ∧
        body.password = some password ∧
        env.bcryptCompare password u.password_hash = true ∧
        token = signToken env w u.id u.email) :=
  ⟨(login_classified env w db body).1, (login_classified env w db body).2.1,
    fun e he => login_fault env w db body e he,
    login_absent_password env w db body,
    (login_classified env w db body).2.2.1, (login_classified env w db body).2.2.2⟩

/-- The amended C5 on an unknown email, a wrong password, a store outage, an
absent password and the right password. -/
theorem login_contract_witness :
    login sampleEnv calm sampleApp.db ⟨some "carol@example.com", some "s3cret"⟩ =
        .response 401 (.error "Invalid credentials") ∧
      login sampleEnv calm sampleApp.db ⟨some "asha@example.com", some "wrong"⟩ =
        .response 401 (.error "Invalid credentials") ∧
      login sampleEnv outage sampleApp.db ⟨some "asha@example.com", some "s3cret"⟩ =
        .response 500 (.error "Login failed") ∧
      login sampleEnv calm sampleApp.db ⟨some "asha@example.com", none⟩ =
        .response 500 (.error "Login failed") ∧
      (calm.fault = none ∧ ∃ u ∈ sampleApp.db.users, ∃ password,
        (⟨some "asha@example.com", some "s3cret"⟩ : LoginBody).email = some u.email ∧
        (⟨some "asha@example.com", some "s3cret"⟩ : LoginBody).password = some password ∧
        sampleEnv.bcryptCompare password u.password_hash = true ∧
        "jwt.asha@example.com" = signToken sampleEnv calm u.id u.email) :=
  ⟨(login_contract sampleEnv calm sampleApp.db ⟨some "carol@example.com", some "s3cret"⟩).1
      rfl (by decide),
    (login_contract sampleEnv calm sampleApp.db ⟨some "asha@example.com", some "wrong"⟩).2.1
      rfl "wrong" rfl (by decide),
    (login_contract sampleEnv outage sampleApp.db
      ⟨some "asha@example.com", some "s3cret"⟩).2.2.1 _ rfl,
    (login_contract sampleEnv calm sampleApp.db ⟨some "asha@example.com", none⟩).2.2.2.1
      rfl rfl (by decide),
    (login_contract sampleEnv calm sampleApp.db
      ⟨some "asha@example.com", some "s3cret"⟩).2.2.2.2.2
      "jwt.asha@example.com" (by decide)⟩

/-! ## Duplicate registration -/

theorem userRow_accepted (id : Nat) (name email hash phone stored : String)
    (hn : name.length ≤ 255) (he : varchar 255 email = some stored)
    (hp : phone.length ≤ 20) :
    userRow id name email hash phone = .ok ⟨id, name, stored, hash, phone⟩ := by
  simp [userRow, varchar255, varchar20, varchar_fits, hn, he, hp, bind, Except.bind, pure,
    Except.pure]

theorem register_succeeded (env : Env) (w : World) (db : Db) (body : RegisterBody)
    (user : PublicUser) (token : String)
    (h : (register env w db body).1 = .response 200 (.session user token)) :
    truthy body.email = true ∧ truthy body.password = true ∧
      ∃ row : User, (register env w db body).2.users = db.users ++ [row] ∧
        varchar 255 (orElse body.email "") = some row.email ∧
        user = ⟨row.id, row.name, row.email, row.phone⟩ ∧
        row.id = db.users_id_seq + 1 ∧
        row.password_hash = env.bcryptHash (orElse body.password "") 10 w.salt ∧
        token = signToken env w row.id row.email := by
  have he : truthy body.email = true := by
    by_contra hne
    simp [register, registerTry, hne] at h
  have hp : truthy body.password = true := by
    by_contra hne
    simp [register, registerTry, hne] at h
  refine ⟨he, hp, ?_⟩
  rw [register_present env w db body he hp] at h ⊢
  obtain ⟨_, _, _, hcases⟩ := insertUser_spec db w (orElse body.name "") (orElse body.email "")
    (env.bcryptHash (orElse body.password "") 10 w.salt) (orElse body.phone "")
  generalize insertUser db w (orElse body.name "") (orElse body.email "")
    (env.bcryptHash (orElse body.password "") 10 w.salt) (orElse body.phone "") = r at h hcases ⊢
  obtain ⟨res, db1⟩ := r
  cases res with
  | error e =>
    rcases registerCatch_status e with hc | hc <;> simp [hc] at h
  | ok u =>
    rcases hcases with ⟨e, he2, _⟩ | ⟨row, hrow, husers, _, hspec, _, _⟩
    · cases he2
    · simp only [Outcome.response.injEq, Body.session.injEq, true_and] at h
      simp only [Except.ok.injEq] at hrow
      obtain ⟨hid, hhash, hvar⟩ := userRow_id _ _ _ _ _ _ hspec
      refine ⟨row, husers, hvar, ?_, hid, hhash, ?_⟩
      · rw [← h.1, hrow]
      · rw [← h.2, hrow]

theorem registerCatch_unique : registerCatch uniqueViolation =
    .response 409 (.error "Email already exists") := by
  decide

/-- C6, as stated, fails: after `asha@example.com` registered successfully, a
second registration with the same email and a password is answered 500
`Registration failed`, not 409, when its phone has 21 characters (rejected by
the `VARCHAR(20)` column before the uniqueness check) and when the store
connection is down. -/
theorem register_duplicate_answers_500 :
    (step sampleEnv ⟨Db.empty, sampleServices, sampleProfessionals⟩ calm
        (.register ashaRegisters)).1 =
        .response 200 (.session ⟨1, "Asha", "asha@example.com", ""⟩ "jwt.asha@example.com") ∧
      (step sampleEnv (step sampleEnv ⟨Db.empty, sampleServices, sampleProfessionals⟩ calm
          (.register ashaRegisters)).2 calm
        (.register ⟨some "Asha", some "asha@example.com", some "s3cret",
          some "+91 98765 43210 x 123"⟩)).1 = .response 500 (.error "Registration failed") ∧
      (step sampleEnv (step sampleEnv ⟨Db.empty, sampleServices, sampleProfessionals⟩ calm
          (.register ashaRegisters)).2 outage (.register ashaRegisters)).1 =
        .response 500 (.error "Registration failed") := by
  decide

/-- C6, amended: in every reachable state, if a register request succeeds, then
after any further requests a register request with the same email and a
password returns no token, leaves the `users` table unchanged and is answered
with an error, 409 or 500; it is answered 409 `Email already exists` when the
store query does not fail for an outside reason and its name and phone have at
most 255 and 20 characters. No two stored users share an email. -/
theorem register_duplicate (env : Env) (app : App) (hreach : Reachable env app)
    (w1 : World) (first : RegisterBody) (between : List (World × Request))
    (w2 : World) (second : RegisterBody) (user : PublicUser) (token : String)
    (hfirst : (step env app w1 (.register first)).1 = .response 200 (.session user token))
    (hemail : second.email = first.email)
    (hpassword : ∃ p, second.password = some p ∧ p ≠ "") :
    (step env (run env (step env app w1 (.register first)).2 between) w2
        (.register second)).1.token? = none ∧
      (step env (run env (step env app w1 (.register first)).2 between) w2
        (.register second)).2.db.users =
        (run env (step env app w1 (.register first)).2 between).db.users ∧
      (∃ status message,
        (step env (run env (step env app w1 (.register first)).2 between) w2
          (.register second)).1 = .response status (.error message) ∧
        (status = 409 ∨ status = 500)) ∧
      (w2.fault = none → (orElse second.name "").length ≤ 255 →
        (orElse second.phone "").length ≤ 20 →
        (step env (run env (step env app w1 (.register first)).2 between) w2
          (.register second)).1 = .response 409 (.error "Email already exists")) ∧
      ((step env (run env (step env app w1 (.register first)).2 between) w2
        (.register second)).2.db.users.map (fun u => u.email)).Nodup := by
  have hnodup : ((step env (run env (step env app w1 (.register first)).2 between) w2
      (.register second)).2.db.users.map (fun u => u.email)).Nodup :=
    (step_consistent env _ w2 _ (run_consistent env between _
      (step_consistent env app w1 _ (reachable_consistent env app hreach)))).emails
  refine ⟨?_, ?_, ?_, ?_, hnodup⟩ <;> clear hnodup
  all_goals
    have hf : (register env w1 app.db first).1 = .response 200 (.session user token) := by
      simpa [step] using hfirst
    obtain ⟨hte, _, row, husers, hvar, _⟩ := register_succeeded env w1 app.db first user token hf
    have hstep1 : (step env app w1 (.register first)).2.db.users = app.db.users ++ [row] := by
      simpa [step] using husers
    obtain ⟨⟨more, hmore⟩, _⟩ := run_grows env between (step env app w1 (.register first)).2
    generalize run env (step env app w1 (.register first)).2 between = app2 at hmore ⊢
    have hrow : row ∈ app2.db.users := by
      rw [hmore, hstep1]
      simp
    obtain ⟨p, hp, hpne⟩ := hpassword
    have hte2 : truthy second.email = true := by rw [hemail]; exact hte
    have htp2 : truthy second.password = true := by rw [hp]; exact truthy_some p hpne
    have hreg := register_present env w2 app2.db second hte2 htp2
    have hvar2 : varchar 255 (orElse second.email "") = some row.email := by
      rw [hemail]; exact hvar
    obtain ⟨_, _, _, hcases⟩ := insertUser_spec app2.db w2 (orElse second.name "")
      (orElse second.email "") (env.bcryptHash (orElse second.password "") 10 w2.salt)
      (orElse second.phone "")
    have herr : ∃ e, (insertUser app2.db w2 (orElse second.name "") (orElse second.email "")
        (env.bcryptHash (orElse second.password "") 10 w2.salt) (orElse second.phone "")).1 =
          .error e ∧
        (insertUser app2.db w2 (orElse second.name "") (orElse second.email "")
        (env.bcryptHash (orElse second.password "") 10 w2.salt) (orElse second.phone "")).2.users
          = app2.db.users := by
      rcases hcases with h | ⟨row2, _, _, _, hspec, hfresh, _⟩
      · exact h
      · have h2 := (userRow_id _ _ _ _ _ _ hspec).2.2
        rw [hvar2] at h2
        exact absurd (Option.some.inj h2) (hfresh row hrow)
    obtain ⟨e, he1, he2⟩ := herr
    have hout : step env app2 w2 (.register second) =
        (registerCatch e, ⟨(insertUser app2.db w2 (orElse second.name "")
          (orElse second.email "") (env.bcryptHash (orElse second.password "") 10 w2.salt)
          (orElse second.phone "")).2, app2.services, app2.professionals⟩) := by
      simp only [step, hreg]
      generalize insertUser app2.db w2 (orElse second.name "") (orElse second.email "")
        (env.bcryptHash (orElse second.password "") 10 w2.salt) (orElse second.phone "") = r
        at he1 ⊢
      obtain ⟨res, db1⟩ := r
      simp only at he1
      subst he1
      rfl
  · rw [hout]
    rcases registerCatch_status e with hc | hc <;> rw [hc] <;> rfl
  · rw [hout]
    exact he2
  · rw [hout]
    rcases registerCatch_status e with hc | hc
    · exact ⟨409, _, hc, Or.inl rfl⟩
    · exact ⟨500, _, hc, Or.inr rfl⟩
  · intro hw hn hph
    rw [hout]
    have hany : app2.db.users.any (fun u => u.email == row.email) = true :=
      List.any_eq_true.mpr ⟨row, hrow, by simp⟩
    have hins : (insertUser app2.db w2 (orElse second.name "") (orElse second.email "")
        (env.bcryptHash (orElse second.password "") 10 w2.salt) (orElse second.phone "")).1 =
          .error uniqueViolation := by
      simp [insertUser, hw, userRow_accepted _ _ _ _ _ _ hn hvar2 hph, hany]
    rw [hins] at he1
    injection he1 with he1
    rw [← he1]
    exact registerCatch_unique

/-- The amended C6 on the first sample user registering twice, the second sample
user registering in between. -/
theorem register_duplicate_witness :
    (step sampleEnv (run sampleEnv (step sampleEnv
        ⟨Db.empty, sampleServices, sampleProfessionals⟩ calm (.register ashaRegisters)).2
        [(calm, .register benRegisters)]) calm (.register ashaRegisters)).1.token? = none ∧
      (step sampleEnv (run sampleEnv (step sampleEnv
        ⟨Db.empty, sampleServices, sampleProfessionals⟩ calm (.register ashaRegisters)).2
        [(calm, .register benRegisters)]) calm (.register ashaRegisters)).2.db.users =
        (run sampleEnv (step sampleEnv
          ⟨Db.empty, sampleServices, sampleProfessionals⟩ calm (.register ashaRegisters)).2
          [(calm, .register benRegisters)]).db.users ∧
      (∃ status message,
        (step sampleEnv (run sampleEnv (step sampleEnv
          ⟨Db.empty, sampleServices, sampleProfessionals⟩ calm (.register ashaRegisters)).2
          [(calm, .register benRegisters)]) calm (.register ashaRegisters)).1 =
            .response status (.error message) ∧
        (status = 409 ∨ status = 500)) ∧
      (calm.fault = none → (orElse ashaRegisters.name "").length ≤ 255 →
        (orElse ashaRegisters.phone "").length ≤ 20 →
        (step sampleEnv (run sampleEnv (step sampleEnv
          ⟨Db.empty, sampleServices, sampleProfessionals⟩ calm (.register ashaRegisters)).2
          [(calm, .register benRegisters)]) calm (.register ashaRegisters)).1 =
            .response 409 (.error "Email already exists")) ∧
      ((step sampleEnv (run sampleEnv (step sampleEnv
        ⟨Db.empty, sampleServices, sampleProfessionals⟩ calm (.register ashaRegisters)).2
        [(calm, .register benRegisters)]) calm (.register ashaRegisters)).2.db.users.map
          (fun u => u.email)).Nodup :=
  register_duplicate sampleEnv ⟨Db.empty, sampleServices, sampleProfessionals⟩
    ⟨sampleServices, sampleProfessionals, [], rfl⟩ calm ashaRegisters
    [(calm, .register benRegisters)] calm ashaRegisters
    ⟨1, "Asha", "asha@example.com", ""⟩ "jwt.asha@example.com" (by decide) rfl
    ⟨"s3cret", rfl, by decide⟩

/-! ## Round trip -/

theorem insertUser_accepted (db : Db) (w : World) (name email hash phone : String)
    (hw : w.fault = none) (hn : name.length ≤ 255) (he : email.length ≤ 255)
    (hp : phone.length ≤ 20) (hfresh : ∀ u ∈ db.users, u.email ≠ email) :
    insertUser db w name email hash phone =
      (.ok ⟨db.users_id_seq + 1, name, email, phone⟩,
        ⟨db.users ++ [⟨db.users_id_seq + 1, name, email, hash, phone⟩], db.bookings,
          db.users_id_seq + 1, db.bookings_id_seq⟩) := by
  have hany : db.users.any (fun u => u.email == email) = false := by
    rw [← Bool.not_eq_true, List.any_eq_true]
    rintro ⟨u, hu, heq⟩
    exact hfresh u hu (by simpa using heq)
  simp [insertUser, hw, userRow_fits _ _ _ _ _ hn he hp, hany]

theorem listBookings_healthy (w : World) (db : Db) (user : TokenPayload) (hw : w.fault = none) :
    listBookings w db user = .response 200 (.bookings
      ((db.bookings.filter (fun b => b.user_id == user.id)).insertionSort newerFirst)) := by
  simp [listBookings, selectBookingsByUser, hw]

set_option maxRecDepth 100000 in
/-- C3, as stated, fails: on the empty store a registration whose (unregistered)
email has 256 characters is answered 500 `Registration failed`, so the round
trip does not start; and after a successful register, login and create, a
listing during which the store connection is down yields no list. -/
theorem round_trip_broken :
    (∀ u ∈ Db.empty.users, u.email ≠ String.mk (List.replicate 256 'a')) ∧
      (step sampleEnv ⟨Db.empty, sampleServices, sampleProfessionals⟩ calm
        (.register ⟨some "Asha", some (String.mk (List.replicate 256 'a')), some "s3cret",
          none⟩)).1 = .response 500 (.error "Registration failed") ∧
      (step sampleEnv (step sampleEnv (step sampleEnv
          ⟨Db.empty, sampleServices, sampleProfessionals⟩ calm (.register ashaRegisters)).2
          calm (.createBooking (some "Bearer jwt.asha@example.com") sampleBooking)).2
        outage (.listBookings (some "Bearer jwt.asha@example.com"))).1 =
          .uncaught ⟨some "ECONNREFUSED", "Error: connect ECONNREFUSED"⟩ := by
  refine ⟨by decide, ?_, by decide⟩
  decide

/-- C3, amended: in every reachable state, for every non-empty email of at most
255 characters that no stored user has and every non-empty password, when no
store query of the four requests fails for an outside reason, name and phone
fit their columns (255 and 20 characters), service, subService, professional
and datetime have at most 255 characters with service, address and datetime
present, `bcrypt.compare` accepts the password against its own hash, and the
token issued by login is non-empty and verifies to the signed payload at the
time of the two booking requests: register succeeds, login with the same
email and password returns the same user and a token, create with that token
returns a record, and list with that token returns exactly that one record,
whose status is `pending`. -/
theorem round_trip (env : Env) (app : App) (hreach : Reachable env app)
    (w1 w2 w3 w4 : World) (name phone : Option String) (email password : String)
    (booking : BookingBody) (service address datetime : String)
    (hemail : email ≠ "") (hpassword : password ≠ "")
    (hfresh : ∀ u ∈ app.db.users, u.email ≠ email)
    (hlen : email.length ≤ 255) (hname : (orElse name "").length ≤ 255)
    (hphone : (orElse phone "").length ≤ 20)
    (hs : booking.service = some service) (hsne : service ≠ "")
    (ha : booking.address = some address) (hane : address ≠ "")
    (hd : booking.datetime = some datetime) (hdne : datetime ≠ "")
    (hl1 : service.length ≤ 255) (hl2 : (orElse booking.subService "").length ≤ 255)
    (hl3 : (orElse booking.professional "").length ≤ 255) (hl4 : datetime.length ≤ 255)
    (hw1 : w1.fault = none) (hw2 : w2.fault = none) (hw3 : w3.fault = none)
    (hw4 : w4.fault = none)
    (hcompare : env.bcryptCompare password (env.bcryptHash password 10 w1.salt) = true)
    (htoken : signToken env w2 (app.db.users_id_seq + 1) email ≠ "")
    (hverify3 : env.jwtVerify (signToken env w2 (app.db.users_id_seq + 1) email)
      env.JWT_SECRET w3.now = some ⟨app.db.users_id_seq + 1, email⟩)
    (hverify4 : env.jwtVerify (signToken env w2 (app.db.users_id_seq + 1) email)
      env.JWT_SECRET w4.now = some ⟨app.db.users_id_seq + 1, email⟩) :
    ∃ (user : PublicUser) (token1 token : String) (b : Booking) (app1 app3 : App),
      step env app w1 (.register ⟨name, some email, some password, phone⟩) =
        (.response 200 (.session user token1), app1) ∧
      step env app1 w2 (.login ⟨some email, some password⟩) =
        (.response 200 (.session user token), app1) ∧
      step env app1 w3 (.createBooking (some ("Bearer " ++ token)) booking) =
        (.response 200 (.booking b), app3) ∧
      step env app3 w4 (.listBookings (some ("Bearer " ++ token))) =
        (.response 200 (.bookings [b]), app3) ∧
      b.status = "pending" ∧ b.user_id = user.id ∧ user.email = email := by
  have hc := reachable_consistent env app hreach
  have te : truthy (some email) = true := truthy_some _ hemail
  have tp : truthy (some password) = true := truthy_some _ hpassword
  have oe : orElse (some email) "" = email := orElse_some _ _ hemail
  have op : orElse (some password) "" = password := orElse_some _ _ hpassword
  have ts : truthy booking.service = true := by rw [hs]; exact truthy_some _ hsne
  have ta : truthy booking.address = true := by rw [ha]; exact truthy_some _ hane
  have td : truthy booking.datetime = true := by rw [hd]; exact truthy_some _ hdne
  have os : orElse booking.service "" = service := by rw [hs]; exact orElse_some _ _ hsne
  have oa : orElse booking.address "" = address := by rw [ha]; exact orElse_some _ _ hane
  have od : orElse booking.datetime "" = datetime := by rw [hd]; exact orElse_some _ _ hdne
  have hreg : register env w1 app.db ⟨name, some email, some password, phone⟩ =
      (.response 200 (.session ⟨app.db.users_id_seq + 1, orElse name "", email, orElse phone ""⟩
          (signToken env w1 (app.db.users_id_seq + 1) email)),
        ⟨app.db.users ++ [⟨app.db.users_id_seq + 1, orElse name "", email,
            env.bcryptHash password 10 w1.salt, orElse phone ""⟩], app.db.bookings,
          app.db.users_id_seq + 1, app.db.bookings_id_seq⟩) := by
    rw [register_present env w1 app.db _ te tp]
    simp only [oe, op]
    rw [insertUser_accepted app.db w1 _ email _ _ hw1 hname hlen hphone hfresh]
  have hfilter : List.filter (fun u => u.email == email)
      (app.db.users ++ [⟨app.db.users_id_seq + 1, orElse name "", email,
        env.bcryptHash password 10 w1.salt, orElse phone ""⟩]) =
      [⟨app.db.users_id_seq + 1, orElse name "", email,
        env.bcryptHash password 10 w1.salt, orElse phone ""⟩] := by
    have hnil : List.filter (fun u => u.email == email) app.db.users = [] := by
      rw [List.filter_eq_nil_iff]
      intro u hu
      simpa using hfresh u hu
    rw [List.filter_append, hnil]
    simp
  have hauth3 := auth_bearer env w3 _ htoken
  rw [hverify3] at hauth3
  have hauth4 := auth_bearer env w4 _ htoken
  rw [hverify4] at hauth4
  have hold : List.filter (fun b => b.user_id == app.db.users_id_seq + 1) app.db.bookings = [] := by
    rw [List.filter_eq_nil_iff]
    intro b hb
    obtain ⟨u, hu, hid⟩ := hc.owners b hb
    have hle := hc.userIds u hu
    simp only [beq_iff_eq]
    omega
  refine ⟨⟨app.db.users_id_seq + 1, orElse name "", email, orElse phone ""⟩,
    signToken env w1 (app.db.users_id_seq + 1) email,
    signToken env w2 (app.db.users_id_seq + 1) email,
    ⟨app.db.bookings_id_seq + 1, app.db.users_id_seq + 1, service,
      orElse booking.subService "", orElse booking.professional "", address, datetime,
      orElse booking.notes "", "pending", w3.now⟩,
    ⟨⟨app.db.users ++ [⟨app.db.users_id_seq + 1, orElse name "", email,
        env.bcryptHash password 10 w1.salt, orElse phone ""⟩], app.db.bookings,
      app.db.users_id_seq + 1, app.db.bookings_id_seq⟩, app.services, app.professionals⟩,
    ⟨⟨app.db.users ++ [⟨app.db.users_id_seq + 1, orElse name "", email,
        env.bcryptHash password 10 w1.salt, orElse phone ""⟩],
      app.db.bookings ++ [⟨app.db.bookings_id_seq + 1, app.db.users_id_seq + 1, service,
        orElse booking.subService "", orElse booking.professional "", address, datetime,
        orElse booking.notes "", "pending", w3.now⟩],
      app.db.users_id_seq + 1, app.db.bookings_id_seq + 1⟩, app.services, app.professionals⟩,
    ?_, ?_, ?_, ?_, rfl, rfl, rfl⟩
  · simp only [step, hreg]
  · simp only [step]
    rw [login_healthy env w2 _ _ email hw2 rfl, hfilter]
    simp [hcompare]
  · simp only [step, protect_next env w3 _ _ _ _ hauth3]
    rw [createBooking_present w3 _ _ booking ts ta td, os, oa, od,
      insertBooking_accepted _ w3 _ service _ _ address datetime _ hw3 ?_ hl1 hl2 hl3 hl4]
    exact ⟨_, List.mem_append.mpr (Or.inr (List.mem_singleton.mpr rfl)), rfl⟩
  · simp only [step, protect_next env w4 _ _ _ _ hauth4]
    rw [listBookings_healthy w4 _ _ hw4]
    simp only [List.filter_append, hold]
    simp

/-- The amended C3 on the empty store and the first sample user. -/
theorem round_trip_witness :
    ∃ (user : PublicUser) (token1 token : String) (b : Booking) (app1 app3 : App),
      step sampleEnv ⟨Db.empty, sampleServices, sampleProfessionals⟩ calm
          (.register ⟨some "Asha", some "asha@example.com", some "s3cret", none⟩) =
        (.response 200 (.session user token1), app1) ∧
      step sampleEnv app1 ⟨60, "salt", none⟩
          (.login ⟨some "asha@example.com", some "s3cret"⟩) =
        (.response 200 (.session user token), app1) ∧
      step sampleEnv app1 ⟨120, "salt", none⟩
          (.createBooking (some ("Bearer " ++ token)) sampleBooking) =
        (.response 200 (.booking b), app3) ∧
      step sampleEnv app3 ⟨180, "salt", none⟩ (.listBookings (some ("Bearer " ++ token))) =
        (.response 200 (.bookings [b]), app3) ∧
      b.status = "pending" ∧ b.user_id = user.id ∧ user.email = "asha@example.com" :=
  round_trip sampleEnv ⟨Db.empty, sampleServices, sampleProfessionals⟩
    ⟨sampleServices, sampleProfessionals, [], rfl⟩
    calm ⟨60, "salt", none⟩ ⟨120, "salt", none⟩ ⟨180, "salt", none⟩
    (some "Asha") none "asha@example.com" "s3cret" sampleBooking
    "Plumbing" "1 Main St" "2025-01-01 10:00"
    (by decide) (by decide) (by decide) (by decide) (by decide) (by decide)
    rfl (by decide) rfl (by decide) rfl (by decide)
    (by decide) (by decide) (by decide) (by decide)
    rfl rfl rfl rfl (by decide) (by decide) (by decide) (by decide)

/-! ## Error handling of the handlers -/

theorem register_responds (env : Env) (w : World) (db : Db) (body : RegisterBody) :
    ∃ status payload, (register env w db body).1 = .response status payload := by
  by_cases he : truthy body.email = true
  · by_cases hp : truthy body.password = true
    · rw [register_present env w db body he hp]
      generalize insertUser db w (orElse body.name "") (orElse body.email "")
        (env.bcryptHash (orElse body.password "") 10 w.salt) (orElse body.phone "") = r
      obtain ⟨res, db1⟩ := r
      cases res with
      | error e =>
        rcases registerCatch_status e with h | h
        · exact ⟨409, _, h⟩
        · exact ⟨500, _, h⟩
      | ok user => exact ⟨200, _, rfl⟩
    · exact ⟨400, .error "Email and password required", by simp [register, registerTry, hp]⟩
  · exact ⟨400, .error "Email and password required", by simp [register, registerTry, he]⟩

theorem loginTry_ok (env : Env) (w : World) (db : Db) (body : LoginBody) (out : Outcome)
    (h : loginTry env w db body = .ok out) : ∃ status payload, out = .response status payload := by
  unfold loginTry at h
  cases hsel : selectUsersByEmail db w body.email with
  | error e => simp [hsel, bind, Except.bind] at h
  | ok rows =>
    simp only [hsel, bind, Except.bind] at h
    cases hhead : rows.head? with
    | none =>
      simp only [hhead, pure, Except.pure, Except.ok.injEq] at h
      exact ⟨401, _, h.symm⟩
    | some user =>
      simp only [hhead] at h
      cases hc : bcryptCompare env body.password user.password_hash with
      | error e => simp [hc] at h
      | ok b =>
        cases b with
        | false =>
          simp [hc, pure, Except.pure] at h
          exact ⟨401, _, h.symm⟩
        | true =>
          simp [hc, pure, Except.pure] at h
          exact ⟨200, _, h.symm⟩

theorem login_responds (env : Env) (w : World) (db : Db) (body : LoginBody) :
    ∃ status payload, login env w db body = .response status payload := by
  unfold login
  cases h : loginTry env w db body with
  | error e => exact ⟨500, _, rfl⟩
  | ok out => exact loginTry_ok env w db body out h

set_option maxRecDepth 100000 in
/-- C1 fails on the code for the two booking routes: with a valid token and a
complete body, `POST /api/bookings` during a store outage, `GET /api/bookings`
during a store outage, and `POST /api/bookings` with a 256-character service on
a healthy store all end with the store's error leaving the handler uncaught,
the handler writing no response, and so does every failing store query of
the two handlers; whereas `register`, `login` and `payment/confirm` answer
every request with a response, an error thrown inside `register` or `login`
being answered with a status and a JSON error. -/
theorem bookings_errors_uncaught :
    (step sampleEnv sampleApp outage
        (.createBooking (some "Bearer jwt.asha@example.com") sampleBooking)).1 =
        .uncaught ⟨some "ECONNREFUSED", "Error: connect ECONNREFUSED"⟩ ∧
      (step sampleEnv sampleApp outage (.listBookings (some "Bearer jwt.asha@example.com"))).1 =
        .uncaught ⟨some "ECONNREFUSED", "Error: connect ECONNREFUSED"⟩ ∧
      (step sampleEnv sampleApp calm (.createBooking (some "Bearer jwt.asha@example.com")
        ⟨some (String.mk (List.replicate 256 'a')), none, none, some "1 Main St",
          some "2025-01-01 10:00", none⟩)).1 = .uncaught tooLong255 ∧
      (∀ w db user body e, truthy body.service = true → truthy body.address = true →
        truthy body.datetime = true → w.fault = some e →
        createBooking w db user body = (.uncaught e, db)) ∧
      (∀ w db user e, w.fault = some e → listBookings w db user = .uncaught e) ∧
      (∀ env w db body, ∃ status payload,
        (register env w db body).1 = .response status payload) ∧
      (∀ env w db body e db1, registerTry env w db body = (.error e, db1) →
        ∃ status message, register env w db body = (.response status (.error message), db1)) ∧
      (∀ env w db body, ∃ status payload, login env w db body = .response status payload) ∧
      (∀ env w db body e, loginTry env w db body = .error e →
        login env w db body = .response 500 (.error "Login failed")) ∧
      ∀ body, ∃ status payload, paymentConfirm body = .response status payload := by
  refine ⟨by decide, by decide, by decide, ?_, ?_, register_responds, ?_, login_responds, ?_, ?_⟩
  · intro w db user body e hs ha hd hw
    rw [createBooking_present w db user body hs ha hd]
    simp [insertBooking, hw]
  · intro w db user e hw
    simp [listBookings, selectBookingsByUser, hw]
  · intro env w db body e db1 h
    unfold register
    rw [h]
    rcases registerCatch_status e with hc | hc
    · exact ⟨409, "Email already exists", by simp [hc]⟩
    · exact ⟨500, "Registration failed", by simp [hc]⟩
  · intro env w db body e h
    simp [login, h]
  · intro body
    exact ⟨200, _, rfl⟩

end CityEase
